import Mathlib

/-!
# gardener-extension-csi-driver-lvm: the extension actuator

A shallow embedding of `pkg/controller/csi-driver-lvm/actuator.go`.

* Go pointers to scalars (`*string`, `*bool`, `*int32`) are `Option` values; `nil` is `none`.
* Go maps are association lists in source order; an unset map is `[]`.
* Go slices are lists; a `nil` slice returned next to an error is `none`.
* Collaborators that live outside the file (the decoder, the image vector, the
  managed-resource registry and client calls, the logger) are fields of an
  environment record; every call to one of them is appended to a call log.
-/

namespace CsiDriverLvm

/-! ## Kubernetes API types, restricted to the fields the actuator sets -/

namespace metav1

/-- Object metadata: the four fields the actuator fills in. -/
structure ObjectMeta where
  Name : String := ""
  Namespace : String := ""
  Annotations : List (String × String) := []
  Labels : List (String × String) := []
deriving DecidableEq, Repr

/-- One requirement of a label selector. -/
structure LabelSelectorRequirement where
  Key : String
  Operator : String
  Values : List String
deriving DecidableEq, Repr

/-- Label selector with its exact-match and expression parts. -/
structure LabelSelector where
  MatchLabels : List (String × String) := []
  MatchExpressions : List LabelSelectorRequirement := []
deriving DecidableEq, Repr

end metav1

namespace intstr

/-- Integer-or-string value as used for probe ports. -/
inductive IntOrString where
  | ofInt (v : Int)
  | ofString (s : String)
deriving DecidableEq, Repr

/-- Go `intstr.FromInt32`. -/
def FromInt32 (v : Int) : IntOrString := IntOrString.ofInt v

end intstr

namespace corev1

/-- Go `corev1.HostPathDirectoryOrCreate`. -/
def HostPathDirectoryOrCreate : String := "DirectoryOrCreate"
/-- Go `corev1.HostPathDirectory`. -/
def HostPathDirectory : String := "Directory"
/-- Go `corev1.PersistentVolumeReclaimDelete`. -/
def PersistentVolumeReclaimDelete : String := "Delete"
/-- Go `corev1.MountPropagationBidirectional`. -/
def MountPropagationBidirectional : String := "Bidirectional"
/-- Go `corev1.URISchemeHTTP`. -/
def URISchemeHTTP : String := "HTTP"
/-- Go `corev1.ProtocolTCP`. -/
def ProtocolTCP : String := "TCP"

/-- Service account object. -/
structure ServiceAccount where
  ObjectMeta : metav1.ObjectMeta := {}
deriving DecidableEq, Repr

/-- Security context of a container. -/
structure SecurityContext where
  ReadOnlyRootFilesystem : Option Bool := none
  Privileged : Option Bool := none
deriving DecidableEq, Repr

/-- Mount of a named volume into a container. -/
structure VolumeMount where
  MountPath : String
  Name : String
  MountPropagation : Option String := none
deriving DecidableEq, Repr

/-- Field selector of an environment variable source. -/
structure ObjectFieldSelector where
  APIVersion : String
  FieldPath : String
deriving DecidableEq, Repr

/-- Source of an environment variable value. -/
structure EnvVarSource where
  FieldRef : Option ObjectFieldSelector := none
deriving DecidableEq, Repr

/-- Environment variable of a container. -/
structure EnvVar where
  Name : String
  ValueFrom : Option EnvVarSource := none
deriving DecidableEq, Repr

/-- HTTP GET probe action. -/
structure HTTPGetAction where
  Path : String
  Port : intstr.IntOrString
  Scheme : String
deriving DecidableEq, Repr

/-- Probe handler. -/
structure ProbeHandler where
  HTTPGet : Option HTTPGetAction := none
deriving DecidableEq, Repr

/-- Liveness probe with its thresholds (Go `int32` values). -/
structure Probe where
  FailureThreshold : Int
  InitialDelaySeconds : Int
  PeriodSeconds : Int
  SuccessThreshold : Int
  TimeoutSeconds : Int
  ProbeHandler : ProbeHandler
deriving DecidableEq, Repr

set_option linter.dupNamespace false in
/-- Port exposed by a container. -/
structure ContainerPort where
  Name : String
  Protocol : String
  ContainerPort : Int
deriving DecidableEq, Repr

/-- Container of a pod. -/
structure Container where
  Name : String
  Image : String
  ImagePullPolicy : String
  Args : List String
  SecurityContext : Option SecurityContext := none
  Env : List EnvVar := []
  LivenessProbe : Option Probe := none
  Ports : List ContainerPort := []
  VolumeMounts : List VolumeMount := []
deriving DecidableEq, Repr

/-- Host path volume source; `Type_` is the Go field `Type`. -/
structure HostPathVolumeSource where
  Path : String
  Type_ : Option String := none
deriving DecidableEq, Repr

/-- Volume source. -/
structure VolumeSource where
  HostPath : Option HostPathVolumeSource := none
deriving DecidableEq, Repr

/-- Volume of a pod. -/
structure Volume where
  Name : String
  VolumeSource : VolumeSource
deriving DecidableEq, Repr

/-- Term of a pod (anti-)affinity rule. -/
structure PodAffinityTerm where
  LabelSelector : Option metav1.LabelSelector := none
  TopologyKey : String
deriving DecidableEq, Repr

/-- Pod anti-affinity rules. -/
structure PodAntiAffinity where
  RequiredDuringSchedulingIgnoredDuringExecution : List PodAffinityTerm := []
deriving DecidableEq, Repr

/-- Affinity of a pod. -/
structure Affinity where
  PodAntiAffinity : Option PodAntiAffinity := none
deriving DecidableEq, Repr

/-- Toleration; the actuator only ever builds empty toleration lists. -/
structure Toleration where
  Key : String := ""
  Operator : String := ""
  Value : String := ""
  Effect : String := ""
deriving DecidableEq, Repr

/-- Pod specification. -/
structure PodSpec where
  Affinity : Option Affinity := none
  NodeSelector : List (String × String) := []
  Tolerations : List Toleration := []
  ServiceAccountName : String := ""
  Containers : List Container := []
  Volumes : List Volume := []
deriving DecidableEq, Repr

/-- Pod template. -/
structure PodTemplateSpec where
  ObjectMeta : metav1.ObjectMeta := {}
  Spec : PodSpec := {}
deriving DecidableEq, Repr

end corev1

namespace rbacv1

/-- Rule of a cluster role. -/
structure PolicyRule where
  APIGroups : List String
  Resources : List String
  Verbs : List String
deriving DecidableEq, Repr

/-- Cluster role object. -/
structure ClusterRole where
  ObjectMeta : metav1.ObjectMeta := {}
  Rules : List PolicyRule := []
deriving DecidableEq, Repr

/-- Subject of a role binding. -/
structure Subject where
  Kind : String
  Name : String
  Namespace : String
deriving DecidableEq, Repr

/-- Reference to the bound role. -/
structure RoleRef where
  APIGroup : String
  Kind : String
  Name : String
deriving DecidableEq, Repr

/-- Cluster role binding object. -/
structure ClusterRoleBinding where
  ObjectMeta : metav1.ObjectMeta := {}
  Subjects : List Subject := []
  RoleRef : RoleRef
deriving DecidableEq, Repr

end rbacv1

namespace appsv1

/-- Specification of a stateful set. -/
structure StatefulSetSpec where
  Replicas : Option Int := none
  ServiceName : String := ""
  Selector : Option metav1.LabelSelector := none
  Template : corev1.PodTemplateSpec := {}
deriving DecidableEq, Repr

/-- Stateful set object. -/
structure StatefulSet where
  ObjectMeta : metav1.ObjectMeta := {}
  Spec : StatefulSetSpec := {}
deriving DecidableEq, Repr

/-- Specification of a daemon set. -/
structure DaemonSetSpec where
  RevisionHistoryLimit : Option Int := none
  Selector : Option metav1.LabelSelector := none
  Template : corev1.PodTemplateSpec := {}
deriving DecidableEq, Repr

/-- Daemon set object. -/
structure DaemonSet where
  ObjectMeta : metav1.ObjectMeta := {}
  Spec : DaemonSetSpec := {}
deriving DecidableEq, Repr

end appsv1

namespace storagev1

/-- Go `storagev1.VolumeBindingWaitForFirstConsumer`. -/
def VolumeBindingWaitForFirstConsumer : String := "WaitForFirstConsumer"

/-- Specification of a CSI driver registration. -/
structure CSIDriverSpec where
  VolumeLifecycleModes : List String := []
  PodInfoOnMount : Option Bool := none
  AttachRequired : Option Bool := none
deriving DecidableEq, Repr

/-- CSI driver object. -/
structure CSIDriver where
  ObjectMeta : metav1.ObjectMeta := {}
  Spec : CSIDriverSpec := {}
deriving DecidableEq, Repr

/-- Storage class object. -/
structure StorageClass where
  ObjectMeta : metav1.ObjectMeta := {}
  Provisioner : String := ""
  ReclaimPolicy : Option String := none
  VolumeBindingMode : Option String := none
  AllowVolumeExpansion : Option Bool := none
  Parameters : List (String × String) := []
deriving DecidableEq, Repr

end storagev1

namespace client

/-- Go `client.Object`: the interface value, one constructor per concrete type the
actuator puts behind it. -/
inductive Object where
  | ServiceAccount (o : corev1.ServiceAccount)
  | ClusterRole (o : rbacv1.ClusterRole)
  | ClusterRoleBinding (o : rbacv1.ClusterRoleBinding)
  | StatefulSet (o : appsv1.StatefulSet)
  | CSIDriver (o : storagev1.CSIDriver)
  | StorageClass (o : storagev1.StorageClass)
  | DaemonSet (o : appsv1.DaemonSet)
deriving DecidableEq, Repr

/-- Kind of an object: the name of its Go type. -/
def Object.kind : Object → String
  | .ServiceAccount _ => "ServiceAccount"
  | .ClusterRole _ => "ClusterRole"
  | .ClusterRoleBinding _ => "ClusterRoleBinding"
  | .StatefulSet _ => "StatefulSet"
  | .CSIDriver _ => "CSIDriver"
  | .StorageClass _ => "StorageClass"
  | .DaemonSet _ => "DaemonSet"

/-- Metadata of an object (Go `GetObjectMeta`). -/
def Object.meta : Object → metav1.ObjectMeta
  | .ServiceAccount o => o.ObjectMeta
  | .ClusterRole o => o.ObjectMeta
  | .ClusterRoleBinding o => o.ObjectMeta
  | .StatefulSet o => o.ObjectMeta
  | .CSIDriver o => o.ObjectMeta
  | .StorageClass o => o.ObjectMeta
  | .DaemonSet o => o.ObjectMeta

/-- Name of an object (Go `GetName`). -/
def Object.name (o : Object) : String := o.meta.Name

/-- Handle of the API client held by the actuator. -/
structure Client where
  id : Nat
deriving DecidableEq, Repr

end client

/-! ## Errors, contexts and the collaborators of the actuator -/

/-- Go `error` values: an error made by a collaborator, or one wrapped by
`fmt.Errorf` with a `%w` verb. -/
inductive Error where
  | New (text : String)
  | Wrapped (format : String) (err : Error)
deriving DecidableEq, Repr

namespace fmt

/-- Go `fmt.Errorf(format, err)` for a format whose only verb is `%w`. -/
def Errorf (format : String) (err : Error) : Error := Error.Wrapped format err

end fmt

namespace time

/-- Go `time.Minute`, in nanoseconds. -/
def Minute : Int := 60 * 1000000000

end time

namespace context

/-- Go `context.Context`: a context received from the caller, or one derived from a
parent by `context.WithTimeout`. -/
inductive Context where
  | ofCaller (id : Nat)
  | withTimeout (parent : Context) (timeout : Int)
deriving DecidableEq, Repr

/-- Go `context.WithTimeout`; the cancel function it also returns is only deferred by
the actuator and has no effect on the calls made before the return. -/
def WithTimeout (parent : Context) (timeout : Int) : Context :=
  Context.withTimeout parent timeout

end context

namespace logr

/-- Go `logr.Logger`, identified by its name. -/
structure Logger where
  name : String
deriving DecidableEq, Repr

end logr

namespace pointer

/-- Go `pointer.Pointer` of metal-lib: a pointer to the given value. -/
def Pointer {α : Type} (v : α) : Option α := some v

/-- Go `pointer.SafeDeref` of metal-lib on `*string`: the pointed-to value, or the
zero value of the type for a nil pointer. -/
def SafeDeref (p : Option String) : String :=
  match p with
  | some v => v
  | none => ""

end pointer

namespace runtime

/-- Go `runtime.RawExtension`: the raw bytes of an embedded object. -/
structure RawExtension where
  Raw : List Nat
deriving DecidableEq, Repr

end runtime

namespace extensionsv1alpha1

/-- Specification of an extension resource; `Type_` is the Go field `Type`. -/
structure ExtensionSpec where
  Type_ : String := ""
  ProviderConfig : Option runtime.RawExtension := none
deriving DecidableEq, Repr

/-- Extension resource handed to the actuator. -/
structure Extension where
  ObjectMeta : metav1.ObjectMeta := {}
  Spec : ExtensionSpec := {}
deriving DecidableEq, Repr

end extensionsv1alpha1

namespace v1alpha1

/-- Provider configuration of the extension: both fields are Go `*string`. -/
structure CsiDriverLvmConfig where
  Kind : String := ""
  APIVersion : String := ""
  HostWritePath : Option String := none
  DevicePattern : Option String := none
deriving DecidableEq, Repr

end v1alpha1

namespace config

/-- Operator-wide controller configuration; the health check configuration is kept
as uninterpreted bytes. -/
structure ControllerConfiguration where
  DefaultHostWritePath : Option String := none
  DefaultDevicePattern : Option String := none
  HealthCheckConfig : Option (List Nat) := none
deriving DecidableEq, Repr

end config

namespace imagevector

/-- Image found in the image vector, with the reference its `String` method renders. -/
structure Image where
  ref : String
deriving DecidableEq, Repr

/-- Go `(*Image).String`. -/
def Image.String (i : Image) : String := i.ref

end imagevector

/-- Serialized bundle of a managed resource (Go `map[string][]byte`). -/
abbrev SeedResources : Type := List (String × List Nat)

/-- Go `runtime.Decoder` as used by the actuator: decoding raw bytes into a provider
configuration value. -/
structure Decoder where
  Decode : List Nat → v1alpha1.CsiDriverLvmConfig → Except Error v1alpha1.CsiDriverLvmConfig

/-- One call made by the actuator to a collaborator, with its arguments. -/
inductive Call where
  | Decode (data : List Nat)
  | FindImage (name : String)
  | AddAllAndSerialize (objects : List client.Object)
  | CreateForSeed (ctx : context.Context) (c : client.Client) (ns : String) (name : String)
      (keepObjects : Bool) (data : SeedResources)
  | Delete (ctx : context.Context) (c : client.Client) (ns : String) (name : String)
      (keepObjects : Bool)
  | WaitUntilDeleted (ctx : context.Context) (c : client.Client) (ns : String) (name : String)
  | Info (log : logr.Logger) (msg : String) (keysAndValues : List String)
deriving DecidableEq, Repr

/-- Collaborators outside the actuator: the image vector, the managed-resource
registry, the three managed-resource calls against an orchestration API whose state
has type `σ`, and the name constant of the managed resource. -/
structure External (σ : Type) where
  FindImage : String → Except Error imagevector.Image
  AddAllAndSerialize : List client.Object → Except Error SeedResources
  CreateForSeed : context.Context → client.Client → String → String → Bool → SeedResources →
    σ → Option Error × σ
  Delete : context.Context → client.Client → String → String → Bool → σ → Option Error × σ
  WaitUntilDeleted : context.Context → client.Client → String → String → σ → Option Error × σ
  SeedCsiDriverLvmResourceName : String

/-- State threaded through the actuator: the orchestration API and the log of the
collaborator calls made so far, oldest first. -/
structure World (σ : Type) where
  api : σ
  calls : List Call

/-- Append a call to the log. -/
def World.record {σ : Type} (w : World σ) (c : Call) : World σ :=
  { w with calls := w.calls ++ [c] }

/-- Go `actuator` struct. -/
structure actuator where
  client : client.Client
  decoder : Decoder
  config : config.ControllerConfiguration

/-- Go constant `namespace`. -/
def namespace_ : String := "kube-system"

/-! ## Calls to the collaborators, each recorded in the call log -/

section Calls
variable {σ : Type}

/-- Go `a.decoder.Decode(raw, nil, into)`. -/
def decoderDecode (a : actuator) (raw : List Nat) (into : v1alpha1.CsiDriverLvmConfig)
    (w : World σ) : Except Error v1alpha1.CsiDriverLvmConfig × World σ :=
  (a.decoder.Decode raw into, w.record (Call.Decode raw))

/-- Go `imagevector.ImageVector().FindImage(name)`. -/
def findImage (E : External σ) (name : String) (w : World σ) :
    Except Error imagevector.Image × World σ :=
  (E.FindImage name, w.record (Call.FindImage name))

/-- Go `managedresources.NewRegistry(...).AddAllAndSerialize(objects...)`. -/
def addAllAndSerialize (E : External σ) (objects : List client.Object) (w : World σ) :
    Except Error SeedResources × World σ :=
  (E.AddAllAndSerialize objects, w.record (Call.AddAllAndSerialize objects))

/-- Go `managedresources.CreateForSeed(ctx, client, namespace, name, keepObjects, data)`. -/
def createForSeed (E : External σ) (ctx : context.Context) (c : client.Client) (ns name : String)
    (keepObjects : Bool) (data : SeedResources) (w : World σ) : Option Error × World σ :=
  let r := E.CreateForSeed ctx c ns name keepObjects data w.api
  (r.1, { api := r.2, calls := w.calls ++ [Call.CreateForSeed ctx c ns name keepObjects data] })

/-- Go `managedresources.Delete(ctx, client, namespace, name, keepObjects)`. -/
def managedresourcesDelete (E : External σ) (ctx : context.Context) (c : client.Client)
    (ns name : String) (keepObjects : Bool) (w : World σ) : Option Error × World σ :=
  let r := E.Delete ctx c ns name keepObjects w.api
  (r.1, { api := r.2, calls := w.calls ++ [Call.Delete ctx c ns name keepObjects] })

/-- Go `managedresources.WaitUntilDeleted(ctx, client, namespace, name)`. -/
def waitUntilDeleted (E : External σ) (ctx : context.Context) (c : client.Client)
    (ns name : String) (w : World σ) : Option Error × World σ :=
  let r := E.WaitUntilDeleted ctx c ns name w.api
  (r.1, { api := r.2, calls := w.calls ++ [Call.WaitUntilDeleted ctx c ns name] })

/-- Go `log.Info(msg, keysAndValues...)`. -/
def logInfo (log : logr.Logger) (msg : String) (keysAndValues : List String) (w : World σ) :
    World σ :=
  w.record (Call.Info log msg keysAndValues)

end Calls

/-! ## The two builders -/

/-- Go local `csidriverlvmServiceAccountController` of `controllerObjects`. -/
def csidriverlvmServiceAccountController (ns : String) : corev1.ServiceAccount :=
  { ObjectMeta := { Name := "csi-driver-lvm-controller", Namespace := ns } }

/-- Go local `csidriverlvmClusterRoleController` of `controllerObjects`. -/
def csidriverlvmClusterRoleController (ns : String) : rbacv1.ClusterRole :=
  { ObjectMeta := { Name := "csi-driver-lvm-controller", Namespace := ns }
    Rules := [
      { APIGroups := [""], Resources := ["persistentvolumes"],
        Verbs := ["get", "list", "watch", "update", "patch", "create", "delete"] },
      { APIGroups := ["storage.k8s.io"], Resources := ["csinodes"],
        Verbs := ["get", "list", "watch"] },
      { APIGroups := ["storage.k8s.io"], Resources := ["volumeattachments"],
        Verbs := ["get", "list", "watch", "update", "patch"] },
      { APIGroups := [""], Resources := ["persistentvolumeclaims"],
        Verbs := ["get", "list", "watch", "update", "patch"] },
      { APIGroups := [""], Resources := ["persistentvolumeclaims/status"],
        Verbs := ["update", "patch"] },
      { APIGroups := ["storage.k8s.io"], Resources := ["storageclaess"],
        Verbs := ["get", "list", "watch"] },
      { APIGroups := [""], Resources := ["events"],
        Verbs := ["get", "list", "watch", "update", "patch", "create", "delete"] },
      { APIGroups := [""], Resources := ["nodes"],
        Verbs := ["get", "list", "watch"] },
      { APIGroups := ["storage.k8s.io"], Resources := ["volumeattachments/status"],
        Verbs := ["patch"] },
      { APIGroups := [""], Resources := ["pods"],
        Verbs := ["get", "list", "watch"] } ] }

/-- Go local `csidriverlvmClusterRoleBindingController` of `controllerObjects`. -/
def csidriverlvmClusterRoleBindingController (ns : String) : rbacv1.ClusterRoleBinding :=
  { ObjectMeta := { Name := "csi-driver-lvm-controller", Namespace := ns }
    Subjects := [
      { Kind := "ServiceAccount", Name := "csi-driver-lvm-controller", Namespace := ns } ]
    RoleRef := { APIGroup := "rbac.authorization.k8s.io", Kind := "ClusterRole",
                 Name := "csi-driver-lvm-controller" } }

/-- Go local `csidriverlvmStatefulsetController` of `controllerObjects`, given the two
images found before it is built. -/
def csidriverlvmStatefulsetController (ns : String)
    (csiAttacherImage csiResizerImage : imagevector.Image) : appsv1.StatefulSet :=
  let hostPathType : String := corev1.HostPathDirectoryOrCreate
  let replicas : Int := 1
  { ObjectMeta := { Name := "csi-driver-lvm-controller", Namespace := ns,
                    Annotations := [], Labels := [] }
    Spec := {
      Replicas := some replicas
      ServiceName := "csi-driver-lvm-controller"
      Selector := some { MatchLabels := [("app", "csi-driver-lvm-controller")] }
      Template := {
        ObjectMeta := { Labels := [("app", "csi-driver-lvm")], Annotations := [] }
        Spec := {
          Affinity := some {
            PodAntiAffinity := some {
              RequiredDuringSchedulingIgnoredDuringExecution := [
                { LabelSelector := some {
                    MatchExpressions := [
                      { Key := "app", Operator := "In",
                        Values := ["csi-driver-lvm-controller"] } ] }
                  TopologyKey := "kubernetes.io/hostname" } ] } }
          NodeSelector := []
          Tolerations := []
          ServiceAccountName := "csi-driver-lvm-controller"
          Containers := [
            { Name := "csi-attacher"
              Image := csiAttacherImage.String
              ImagePullPolicy := "IfNotPresent"
              Args := ["--v=5", "--csi-address=/csi/csi.sock", "--feature-gates=Topology=true"]
              SecurityContext := some {
                ReadOnlyRootFilesystem := pointer.Pointer true
                Privileged := pointer.Pointer true }
              VolumeMounts := [ { MountPath := "/csi", Name := "socket-dir" } ] },
            { Name := "csi-resizer"
              Image := csiResizerImage.String
              ImagePullPolicy := "IfNotPresent"
              Args := ["--v=5", "--csi-address=/csi/csi.sock"]
              SecurityContext := some {
                ReadOnlyRootFilesystem := pointer.Pointer true
                Privileged := pointer.Pointer true }
              VolumeMounts := [ { MountPath := "/csi", Name := "socket-dir" } ] } ]
          Volumes := [
            { Name := "socket-dir"
              VolumeSource := {
                HostPath := some { Path := "/var/lib/kubelet/plugins/csi-driver-lvm",
                                   Type_ := some hostPathType } } } ] } } } }

/-- Go `(a *actuator) controllerObjects(namespace)`: the pair of the returned slice
(`none` for nil) and the returned error (`none` for nil). -/
def actuator.controllerObjects {σ : Type} (E : External σ) (_a : actuator) (ns : String)
    (w : World σ) : (Option (List client.Object) × Option Error) × World σ :=
  match findImage E "csi-attacher" w with
  | (Except.error err, w) =>
    ((none, some (fmt.Errorf "failed to find csi-attacher image: %w" err)), w)
  | (Except.ok csiAttacherImage, w) =>
  match findImage E "csi-resizer" w with
  | (Except.error err, w) =>
    ((none, some (fmt.Errorf "failed to find csi-resizer image: %w" err)), w)
  | (Except.ok csiResizerImage, w) =>
  let objects : List client.Object := [
    client.Object.ServiceAccount (csidriverlvmServiceAccountController ns),
    client.Object.ClusterRole (csidriverlvmClusterRoleController ns),
    client.Object.ClusterRoleBinding (csidriverlvmClusterRoleBindingController ns),
    client.Object.StatefulSet (csidriverlvmStatefulsetController ns csiAttacherImage csiResizerImage) ]
  ((some objects, none), w)

/-- Go local `csidriverlvmDriver` of `pluginObjects`. -/
def csidriverlvmDriver (ns : String) : storagev1.CSIDriver :=
  { ObjectMeta := { Name := "csi-driver-lvm", Namespace := ns }
    Spec := { VolumeLifecycleModes := ["Persistent", "Ephemeral"]
              PodInfoOnMount := pointer.Pointer true
              AttachRequired := pointer.Pointer false } }

/-- Go local `csidriverlvmServiceAccountPlugin` of `pluginObjects`. -/
def csidriverlvmServiceAccountPlugin (ns : String) : corev1.ServiceAccount :=
  { ObjectMeta := { Name := "csi-driver-lvm-plugin", Namespace := ns } }

/-- Go local `csidriverlvmClusterRolePlugin` of `pluginObjects`. -/
def csidriverlvmClusterRolePlugin (ns : String) : rbacv1.ClusterRole :=
  { ObjectMeta := { Name := "csi-driver-lvm-plugin", Namespace := ns }
    Rules := [
      { APIGroups := [""], Resources := ["persistentvolumes"],
        Verbs := ["get", "list", "watch", "update", "patch", "create", "delete"] },
      { APIGroups := [""], Resources := ["persistentvolumeclaims"],
        Verbs := ["get", "list", "watch"] },
      { APIGroups := [""], Resources := ["persistentvolumeclaims/status"],
        Verbs := ["update", "patch"] },
      { APIGroups := [""], Resources := ["events"],
        Verbs := ["list", "watch", "update", "patch", "create"] },
      { APIGroups := [""], Resources := ["nodes"],
        Verbs := ["get", "list", "watch"] },
      { APIGroups := [""], Resources := ["pods"],
        Verbs := ["get", "list", "watch", "create", "delete"] } ] }

/-- Go local `csidriverlvmClusterRoleBindingPlugin` of `pluginObjects`. -/
def csidriverlvmClusterRoleBindingPlugin (ns : String) : rbacv1.ClusterRoleBinding :=
  { ObjectMeta := { Name := "csi-driver-lvm-plugin", Namespace := ns }
    Subjects := [
      { Kind := "ServiceAccount", Name := "csi-driver-lvm-plugin", Namespace := ns } ]
    RoleRef := { APIGroup := "rbac.authorization.k8s.io", Kind := "ClusterRole",
                 Name := "csi-driver-lvm-plugin" } }

/-- The four storage class literals of `pluginObjects` differ in name and `type`
parameter only; this is their common shape. -/
def storageClassLiteral (name type : String) : storagev1.StorageClass :=
  let reclaimPolicy : String := corev1.PersistentVolumeReclaimDelete
  let volumeBindingMode : String := storagev1.VolumeBindingWaitForFirstConsumer
  { ObjectMeta := { Name := name }
    Provisioner := "lvm.csi.metal-stack.io"
    ReclaimPolicy := some reclaimPolicy
    VolumeBindingMode := some volumeBindingMode
    AllowVolumeExpansion := pointer.Pointer true
    Parameters := [("type", type)] }

/-- Go local `csidriverlvmLinearStorageClass` of `pluginObjects`. -/
def csidriverlvmLinearStorageClass : storagev1.StorageClass :=
  storageClassLiteral "csi-driver-lvm-linear" "linear"

/-- Go local `csidriverlvmMirrorStorageClass` of `pluginObjects`. -/
def csidriverlvmMirrorStorageClass : storagev1.StorageClass :=
  storageClassLiteral "csi-driver-lvm-mirror" "mirror"

/-- Go local `csidriverlvmStripedStorageClass` of `pluginObjects`. -/
def csidriverlvmStripedStorageClass : storagev1.StorageClass :=
  storageClassLiteral "csi-driver-lvm-striped" "striped"

/-- Go local `csidriverlvmDefaultStorageClass` of `pluginObjects`. -/
def csidriverlvmDefaultStorageClass : storagev1.StorageClass :=
  storageClassLiteral "csi-lvm" "linear"

/-- The `KUBE_NODE_NAME` environment variable both plugin containers declare. -/
def kubeNodeNameEnv : corev1.EnvVar :=
  { Name := "KUBE_NODE_NAME"
    ValueFrom := some { FieldRef := some { APIVersion := "v1", FieldPath := "spec.nodeName" } } }

/-- Container `csi-node-driver-registrar` of the plugin daemon set. -/
def registrarContainer (csiNodeDriverRegistrarImage : imagevector.Image) : corev1.Container :=
  { Name := "csi-node-driver-registrar"
    Image := csiNodeDriverRegistrarImage.String
    ImagePullPolicy := "IfNotPresent"
    Args := ["--v=5", "--csi-address=/csi/csi.sock",
             "--kubelet-registration-path=/var/lib/kubelet/plugins/csi-driver-lvm/csi.sock"]
    SecurityContext := some { ReadOnlyRootFilesystem := pointer.Pointer false }
    Env := [kubeNodeNameEnv]
    VolumeMounts := [
      { MountPath := "/csi", Name := "socket-dir" },
      { MountPath := "/var/lib/kubelet/plugins/csi-driver-lvm/csi.sock", Name := "socket-dir" },
      { MountPath := "/registration", Name := "registration-dir" } ] }

/-- Container `csi-driver-lvm-plugin` of the plugin daemon set: the driver binary
with its command line. -/
def driverContainer (csidriverlvmConfig : v1alpha1.CsiDriverLvmConfig)
    (csiDriverLvmImage csiDriverLvmProvisionerImage : imagevector.Image) : corev1.Container :=
  let mountPropagation : String := corev1.MountPropagationBidirectional
  let healthPort : Int := 9898
  { Name := "csi-driver-lvm-plugin"
    Image := csiDriverLvmImage.String
    ImagePullPolicy := "IfNotPresent"
    Args := [
      "--drivername=lvm.csi.metal-stack.io",
      "--endpoint=unix:///csi/csi.sock",
      "--hostwritepath=" ++ pointer.SafeDeref csidriverlvmConfig.HostWritePath,
      "--devices=" ++ pointer.SafeDeref csidriverlvmConfig.HostWritePath,
      "--nodeid=$(KUBE_NODE_NAME)",
      "--vgname=csi-lvm",
      "--namespace=kube-system",
      "--provisionerImage=" ++ csiDriverLvmProvisionerImage.String,
      "--pullpolicy=IfNotPresent" ]
    SecurityContext := some {
      ReadOnlyRootFilesystem := pointer.Pointer false
      Privileged := pointer.Pointer true }
    Env := [kubeNodeNameEnv]
    LivenessProbe := some {
      FailureThreshold := 5
      InitialDelaySeconds := 10
      PeriodSeconds := 2
      SuccessThreshold := 1
      TimeoutSeconds := 3
      ProbeHandler := {
        HTTPGet := some { Path := "/healthz", Port := intstr.FromInt32 healthPort,
                          Scheme := corev1.URISchemeHTTP } } }
    Ports := [ { Name := "healthz", Protocol := corev1.ProtocolTCP, ContainerPort := 9898 } ]
    VolumeMounts := [
      { MountPath := "/csi", Name := "socket-dir" },
      { MountPath := "/var/lib/kubelet/pods", Name := "mountpoint-dir",
        MountPropagation := some mountPropagation },
      { MountPath := "/var/lib/kubelet/plugins", Name := "plugins-dir",
        MountPropagation := some mountPropagation },
      { MountPath := "/dev", Name := "dev-dir", MountPropagation := some mountPropagation },
      { MountPath := "/lib/modules", Name := "mod-dir" },
      { MountPath := "/etc/lvm/backup", Name := "lvmbackup",
        MountPropagation := some mountPropagation },
      { MountPath := "/etc/lvm/cache", Name := "lvmcache",
        MountPropagation := some mountPropagation },
      { MountPath := "/etc/lvm/archive", Name := "lvmarchive",
        MountPropagation := some mountPropagation },
      { MountPath := "/etc/lvm/lock", Name := "lvmlock",
        MountPropagation := some mountPropagation } ] }

/-- Container `livenessprobe` of the plugin daemon set. -/
def livenessprobeContainer (livenessprobeImage : imagevector.Image) : corev1.Container :=
  { Name := "livenessprobe"
    Image := livenessprobeImage.String
    ImagePullPolicy := "IfNotPresent"
    Args := ["--csi-address=/csi/csi.sock", "--health-port=9898"]
    SecurityContext := some { ReadOnlyRootFilesystem := pointer.Pointer true }
    VolumeMounts := [ { MountPath := "/csi", Name := "socket-dir" } ] }

/-- A host path volume of the plugin daemon set. -/
def hostPathVolume (name path : String) (type : Option String) : corev1.Volume :=
  { Name := name, VolumeSource := { HostPath := some { Path := path, Type_ := type } } }

/-- Volumes of the plugin daemon set, in source order. -/
def pluginVolumes (csidriverlvmConfig : v1alpha1.CsiDriverLvmConfig) : List corev1.Volume :=
  let hostPathTypeCreate : String := corev1.HostPathDirectoryOrCreate
  let hostPathTypeDir : String := corev1.HostPathDirectory
  [ hostPathVolume "socket-dir" "/var/lib/kubelet/plugins/csi-driver-lvm" (some hostPathTypeCreate),
    hostPathVolume "mountpoint-dir" "/var/lib/kubelet/pods" (some hostPathTypeCreate),
    hostPathVolume "registration-dir" "/var/lib/kubelet/plugins_registry" (some hostPathTypeDir),
    hostPathVolume "plugins-dir" "/var/lib/kubelet/plugins" (some hostPathTypeDir),
    hostPathVolume "dev-dir" "/dev" (some hostPathTypeDir),
    hostPathVolume "mod-dir" "/lib/modules" none,
    hostPathVolume "lvmcache"
      (pointer.SafeDeref csidriverlvmConfig.HostWritePath ++ "/cache") (some hostPathTypeCreate),
    hostPathVolume "lvmarchive"
      (pointer.SafeDeref csidriverlvmConfig.HostWritePath ++ "/archive") (some hostPathTypeCreate),
    hostPathVolume "lvmbackup"
      (pointer.SafeDeref csidriverlvmConfig.HostWritePath ++ "/backup") (some hostPathTypeCreate),
    hostPathVolume "lvmlock"
      (pointer.SafeDeref csidriverlvmConfig.HostWritePath ++ "/lock") (some hostPathTypeCreate) ]

/-- Go local `csidriverlvmDaemonSetPlugin` of `pluginObjects`, given the provider
configuration and the four images found before it is built. -/
def csidriverlvmDaemonSetPlugin (ns : String) (csidriverlvmConfig : v1alpha1.CsiDriverLvmConfig)
    (csiNodeDriverRegistrarImage livenessprobeImage csiDriverLvmImage
      csiDriverLvmProvisionerImage : imagevector.Image) : appsv1.DaemonSet :=
  let revisionHistoryLimit : Int := 10
  { ObjectMeta := { Name := "csi-driver-lvm-plugin", Namespace := ns }
    Spec := {
      RevisionHistoryLimit := some revisionHistoryLimit
      Selector := some { MatchLabels := [("app", "csi-driver-lvm-plugin")] }
      Template := {
        ObjectMeta := { Labels := [("app", "csi-driver-lvm-plugin")] }
        Spec := {
          ServiceAccountName := "csi-driver-lvm-plugin"
          Tolerations := []
          NodeSelector := []
          Containers := [
            registrarContainer csiNodeDriverRegistrarImage,
            driverContainer csidriverlvmConfig csiDriverLvmImage csiDriverLvmProvisionerImage,
            livenessprobeContainer livenessprobeImage ]
          Volumes := pluginVolumes csidriverlvmConfig } } } }

/-- Go `(a *actuator) pluginObjects(namespace, csidriverlvmConfig, log)`: the pair of
the returned slice (`none` for nil) and the returned error (`none` for nil). -/
def actuator.pluginObjects {σ : Type} (E : External σ) (_a : actuator) (ns : String)
    (csidriverlvmConfig : v1alpha1.CsiDriverLvmConfig) (_log : logr.Logger) (w : World σ) :
    (Option (List client.Object) × Option Error) × World σ :=
  match findImage E "csi-node-driver-registrar" w with
  | (Except.error err, w) =>
    ((none, some (fmt.Errorf "failed to find csi-node-driver-registrar image: %w" err)), w)
  | (Except.ok csiNodeDriverRegistrarImage, w) =>
  match findImage E "livenessprobe" w with
  | (Except.error err, w) =>
    ((none, some (fmt.Errorf "failed to find livenessprobe image: %w" err)), w)
  | (Except.ok livenessprobeImage, w) =>
  match findImage E "csi-driver-lvm" w with
  | (Except.error err, w) =>
    ((none, some (fmt.Errorf "failed to find csi-driver-lvm image: %w" err)), w)
  | (Except.ok csiDriverLvmImage, w) =>
  match findImage E "csi-driver-lvm-provisioner" w with
  | (Except.error err, w) =>
    ((none, some (fmt.Errorf "failed to find csi-driver-lvm-provisioner image: %w" err)), w)
  | (Except.ok csiDriverLvmProvisionerImage, w) =>
  let objects : List client.Object := [
    client.Object.CSIDriver (csidriverlvmDriver ns),
    client.Object.ServiceAccount (csidriverlvmServiceAccountPlugin ns),
    client.Object.ClusterRole (csidriverlvmClusterRolePlugin ns),
    client.Object.ClusterRoleBinding (csidriverlvmClusterRoleBindingPlugin ns),
    client.Object.StorageClass csidriverlvmDefaultStorageClass,
    client.Object.StorageClass csidriverlvmLinearStorageClass,
    client.Object.StorageClass csidriverlvmMirrorStorageClass,
    client.Object.StorageClass csidriverlvmStripedStorageClass,
    client.Object.DaemonSet (csidriverlvmDaemonSetPlugin ns csidriverlvmConfig
      csiNodeDriverRegistrarImage livenessprobeImage csiDriverLvmImage
      csiDriverLvmProvisionerImage) ]
  ((some objects, none), w)

/-! ## The lifecycle operations -/

/-- Result of a lifecycle operation: the returned error (`none` for nil), the
receiver after the call, and the world after the call. -/
structure Outcome (σ : Type) where
  err : Option Error
  self : actuator
  world : World σ

section Lifecycle
variable {σ : Type}

/-- First step of `Reconcile` (the declaration of `csidriverlvmConfig` and the
`if ex.Spec.ProviderConfig != nil` block): the provider configuration after
decoding, or the error `Reconcile` returns when decoding fails. -/
def Reconcile.decodeProviderConfig (a : actuator) (ex : extensionsv1alpha1.Extension)
    (w : World σ) : Except Error v1alpha1.CsiDriverLvmConfig × World σ :=
  let csidriverlvmConfig : v1alpha1.CsiDriverLvmConfig := {}
  match ex.Spec.ProviderConfig with
  | some providerConfig =>
    match decoderDecode a providerConfig.Raw csidriverlvmConfig w with
    | (Except.error err, w) =>
      (Except.error (fmt.Errorf "failed to decode provider config: %w" err), w)
    | (Except.ok decoded, w) => (Except.ok decoded, w)
  | none => (Except.ok csidriverlvmConfig, w)

/-- Second step of `Reconcile` (from `var hostwritepath` to the end of the
`if devicepattern == nil` block): the operator defaults fill the unset fields. -/
def Reconcile.applyDefaults (a : actuator) (csidriverlvmConfig : v1alpha1.CsiDriverLvmConfig) :
    v1alpha1.CsiDriverLvmConfig :=
  let hostwritepath := csidriverlvmConfig.HostWritePath
  let devicepattern := csidriverlvmConfig.DevicePattern
  let csidriverlvmConfig :=
    if hostwritepath = none then
      { csidriverlvmConfig with HostWritePath := a.config.DefaultHostWritePath }
    else csidriverlvmConfig
  let csidriverlvmConfig :=
    if devicepattern = none then
      { csidriverlvmConfig with DevicePattern := a.config.DefaultDevicePattern }
    else csidriverlvmConfig
  csidriverlvmConfig

/-- Go `(a *actuator) Reconcile(ctx, log, ex)`. -/
def actuator.Reconcile (E : External σ) (a : actuator) (ctx : context.Context)
    (log : logr.Logger) (ex : extensionsv1alpha1.Extension) (w : World σ) : Outcome σ :=
  match Reconcile.decodeProviderConfig a ex w with
  | (Except.error err, w) => { err := some err, self := a, world := w }
  | (Except.ok decoded, w) =>
  let csidriverlvmConfig := Reconcile.applyDefaults a decoded
  match a.controllerObjects E namespace_ w with
  | ((_, some err), w) => { err := some err, self := a, world := w }
  | ((controllerObjects, none), w) =>
  match a.pluginObjects E namespace_ csidriverlvmConfig log w with
  | ((_, some err), w) => { err := some err, self := a, world := w }
  | ((pluginObjects, none), w) =>
  let objects : List client.Object := []
  let objects := objects ++ controllerObjects.getD []
  let objects := objects ++ pluginObjects.getD []
  match addAllAndSerialize E objects w with
  | (Except.error err, w) => { err := some err, self := a, world := w }
  | (Except.ok seedResources, w) =>
  match createForSeed E ctx a.client namespace_ E.SeedCsiDriverLvmResourceName false
      seedResources w with
  | (some _, w) => { err := none, self := a, world := w }
  | (none, w) =>
  let w := logInfo log "managed resource created succesfully"
    ["name", E.SeedCsiDriverLvmResourceName] w
  { err := none, self := a, world := w }

/-- The part of `Reconcile` after the merge (from the call of `controllerObjects` to
the final `return nil`), as a function of the provider configuration it is run on. -/
def Reconcile.build (E : External σ) (a : actuator) (ctx : context.Context)
    (log : logr.Logger) (csidriverlvmConfig : v1alpha1.CsiDriverLvmConfig) (w : World σ) :
    Outcome σ :=
  match a.controllerObjects E namespace_ w with
  | ((_, some err), w) => { err := some err, self := a, world := w }
  | ((controllerObjects, none), w) =>
  match a.pluginObjects E namespace_ csidriverlvmConfig log w with
  | ((_, some err), w) => { err := some err, self := a, world := w }
  | ((pluginObjects, none), w) =>
  let objects : List client.Object := []
  let objects := objects ++ controllerObjects.getD []
  let objects := objects ++ pluginObjects.getD []
  match addAllAndSerialize E objects w with
  | (Except.error err, w) => { err := some err, self := a, world := w }
  | (Except.ok seedResources, w) =>
  match createForSeed E ctx a.client namespace_ E.SeedCsiDriverLvmResourceName false
      seedResources w with
  | (some _, w) => { err := none, self := a, world := w }
  | (none, w) =>
  let w := logInfo log "managed resource created succesfully"
    ["name", E.SeedCsiDriverLvmResourceName] w
  { err := none, self := a, world := w }

/-- Go `(a *actuator) Delete(ctx, log, ex)`. -/
def actuator.Delete (E : External σ) (a : actuator) (ctx : context.Context)
    (_log : logr.Logger) (_ex : extensionsv1alpha1.Extension) (w : World σ) : Outcome σ :=
  match managedresourcesDelete E ctx a.client namespace_ E.SeedCsiDriverLvmResourceName
      false w with
  | (some err, w) => { err := some err, self := a, world := w }
  | (none, w) =>
  let timeoutCtx := context.WithTimeout ctx (2 * time.Minute)
  match waitUntilDeleted E timeoutCtx a.client namespace_ E.SeedCsiDriverLvmResourceName w with
  | (some err, w) => { err := some err, self := a, world := w }
  | (none, w) => { err := none, self := a, world := w }

/-- Go `(a *actuator) ForceDelete(_, _, _)`. -/
def actuator.ForceDelete (_E : External σ) (a : actuator) (_ctx : context.Context)
    (_log : logr.Logger) (_ex : extensionsv1alpha1.Extension) (w : World σ) : Outcome σ :=
  { err := none, self := a, world := w }

/-- Go `(a *actuator) Restore(ctx, log, ex)`. -/
def actuator.Restore (E : External σ) (a : actuator) (ctx : context.Context)
    (log : logr.Logger) (ex : extensionsv1alpha1.Extension) (w : World σ) : Outcome σ :=
  a.Reconcile E ctx log ex w

/-- Go `(a *actuator) Migrate(ctx, log, ex)`. -/
def actuator.Migrate (_E : External σ) (a : actuator) (_ctx : context.Context)
    (_log : logr.Logger) (_ex : extensionsv1alpha1.Extension) (w : World σ) : Outcome σ :=
  { err := none, self := a, world := w }

end Lifecycle

/-! ## Observations on built objects and on the call log -/

/-- The six symbolic image names, in the order `Reconcile` looks them up. -/
def controllerImageNames : List String := ["csi-attacher", "csi-resizer"]

/-- The image names `pluginObjects` looks up, in order. -/
def pluginImageNames : List String :=
  ["csi-node-driver-registrar", "livenessprobe", "csi-driver-lvm", "csi-driver-lvm-provisioner"]

/-- The image names of both builders, controller tier first. -/
def imageNames : List String := controllerImageNames ++ pluginImageNames

/-- The daemon sets among a list of objects. -/
def daemonSets (objects : List client.Object) : List appsv1.DaemonSet :=
  objects.filterMap fun o =>
    match o with
    | client.Object.DaemonSet d => some d
    | _ => none

/-- Argument lists of the containers with the given name in the daemon sets of a list
of objects. -/
def containerArgs (name : String) (objects : List client.Object) : List (List String) :=
  (daemonSets objects).flatMap fun d =>
    (d.Spec.Template.Spec.Containers.filter fun c => c.Name = name).map fun c => c.Args

/-- Host paths of the volumes with the given name in the daemon sets of a list of
objects. -/
def hostPaths (name : String) (objects : List client.Object) : List String :=
  (daemonSets objects).flatMap fun d =>
    (d.Spec.Template.Spec.Volumes.filter fun v => v.Name = name).filterMap fun v =>
      v.VolumeSource.HostPath.map fun h => h.Path

/-- Is the call a bundle apply (`CreateForSeed`)? -/
def Call.isApply : Call → Bool
  | Call.CreateForSeed _ _ _ _ _ _ => true
  | _ => false

/-- Is the call a decode of a provider configuration? -/
def Call.isDecode : Call → Bool
  | Call.Decode _ => true
  | _ => false

/-- Object lists handed to serialization by the calls of a log, oldest first. -/
def serializedObjects (calls : List Call) : List (List client.Object) :=
  calls.filterMap fun c =>
    match c with
    | Call.AddAllAndSerialize objects => some objects
    | _ => none

/-- Bundles handed to apply by the calls of a log, with the namespace and name they
are applied under, oldest first. -/
def appliedBundles (calls : List Call) : List (String × String × SeedResources) :=
  calls.filterMap fun c =>
    match c with
    | Call.CreateForSeed _ _ ns name _ data => some (ns, name, data)
    | _ => none

/-- The first image name of a list that the image vector fails to find, with the
error it gives for it. -/
def firstFailure {σ : Type} (E : External σ) : List String → Option (String × Error)
  | [] => none
  | name :: rest =>
    match E.FindImage name with
    | Except.error err => some (name, err)
    | Except.ok _ => firstFailure E rest

/-- The image names a builder looks up before it stops: those up to and including the
first one the image vector fails to find. -/
def attempted {σ : Type} (E : External σ) : List String → List String
  | [] => []
  | name :: rest =>
    match E.FindImage name with
    | Except.error _ => [name]
    | Except.ok _ => name :: attempted E rest

/-- The image found for a name, for use where the lookup is known to succeed. -/
def foundImage {σ : Type} (E : External σ) (name : String) : imagevector.Image :=
  match E.FindImage name with
  | Except.ok image => image
  | Except.error _ => { ref := "" }

/-- The list `controllerObjects` returns when both of its images are found. -/
def controllerObjectList {σ : Type} (E : External σ) (ns : String) : List client.Object :=
  [ client.Object.ServiceAccount (csidriverlvmServiceAccountController ns),
    client.Object.ClusterRole (csidriverlvmClusterRoleController ns),
    client.Object.ClusterRoleBinding (csidriverlvmClusterRoleBindingController ns),
    client.Object.StatefulSet (csidriverlvmStatefulsetController ns
      (foundImage E "csi-attacher") (foundImage E "csi-resizer")) ]

/-- The list `pluginObjects` returns when all four of its images are found. -/
def pluginObjectList {σ : Type} (E : External σ) (ns : String)
    (csidriverlvmConfig : v1alpha1.CsiDriverLvmConfig) : List client.Object :=
  [ client.Object.CSIDriver (csidriverlvmDriver ns),
    client.Object.ServiceAccount (csidriverlvmServiceAccountPlugin ns),
    client.Object.ClusterRole (csidriverlvmClusterRolePlugin ns),
    client.Object.ClusterRoleBinding (csidriverlvmClusterRoleBindingPlugin ns),
    client.Object.StorageClass csidriverlvmDefaultStorageClass,
    client.Object.StorageClass csidriverlvmLinearStorageClass,
    client.Object.StorageClass csidriverlvmMirrorStorageClass,
    client.Object.StorageClass csidriverlvmStripedStorageClass,
    client.Object.DaemonSet (csidriverlvmDaemonSetPlugin ns csidriverlvmConfig
      (foundImage E "csi-node-driver-registrar") (foundImage E "livenessprobe")
      (foundImage E "csi-driver-lvm") (foundImage E "csi-driver-lvm-provisioner")) ]

/-- Outcome of the decoder on the provider configuration of an extension resource; the
zero configuration when there is none. -/
def decodedConfig (a : actuator) (ex : extensionsv1alpha1.Extension) :
    Except Error v1alpha1.CsiDriverLvmConfig :=
  match ex.Spec.ProviderConfig with
  | some providerConfig => a.decoder.Decode providerConfig.Raw {}
  | none => Except.ok {}

/-- The object lists a run of `Reconcile` is to serialize, as a function of the decoder
outcome, the operator configuration and the image lookups alone: one list when the
decode succeeds and all images are found, none otherwise. -/
def plannedObjects {σ : Type} (E : External σ) (a : actuator)
    (ex : extensionsv1alpha1.Extension) : List (List client.Object) :=
  match decodedConfig a ex with
  | Except.error _ => []
  | Except.ok decoded =>
    match firstFailure E imageNames with
    | some _ => []
    | none => [controllerObjectList E namespace_ ++
        pluginObjectList E namespace_ (Reconcile.applyDefaults a decoded)]

/-- The bundles a run of `Reconcile` is to apply: the serialization of each planned
object list, under the namespace and name of the managed resource. -/
def plannedBundles {σ : Type} (E : External σ) (a : actuator)
    (ex : extensionsv1alpha1.Extension) : List (String × String × SeedResources) :=
  (plannedObjects E a ex).filterMap fun objects =>
    match E.AddAllAndSerialize objects with
    | Except.ok seedResources => some (namespace_, E.SeedCsiDriverLvmResourceName, seedResources)
    | Except.error _ => none

/-- Value of a label in a label map (Go map lookup). -/
def labelValue (labels : List (String × String)) (key : String) : Option String :=
  labels.lookup key

/-- Does a label map satisfy one selector requirement? The semantics of the Kubernetes
operators `In`, `NotIn`, `Exists` and `DoesNotExist`; a requirement with any other
operator is invalid and satisfied by nothing. -/
def requirementMatches (r : metav1.LabelSelectorRequirement)
    (labels : List (String × String)) : Bool :=
  if r.Operator = "In" then
    match labelValue labels r.Key with
    | some value => decide (value ∈ r.Values)
    | none => false
  else if r.Operator = "NotIn" then
    match labelValue labels r.Key with
    | some value => decide (value ∉ r.Values)
    | none => true
  else if r.Operator = "Exists" then
    (labelValue labels r.Key).isSome
  else if r.Operator = "DoesNotExist" then
    (labelValue labels r.Key).isNone
  else false

/-- Does a label selector match a label map? Every pair of `MatchLabels` is a label
of the map and every requirement of `MatchExpressions` is satisfied (the semantics of
Kubernetes label selectors). -/
def selectorMatches (selector : metav1.LabelSelector) (labels : List (String × String)) :
    Bool :=
  (selector.MatchLabels.all fun kv => labelValue labels kv.1 == some kv.2) &&
  (selector.MatchExpressions.all fun r => requirementMatches r labels)

/-- The stateful sets among a list of objects. -/
def statefulSets (objects : List client.Object) : List appsv1.StatefulSet :=
  objects.filterMap fun o =>
    match o with
    | client.Object.StatefulSet s => some s
    | _ => none

/-- The cluster roles among a list of objects. -/
def clusterRoles (objects : List client.Object) : List rbacv1.ClusterRole :=
  objects.filterMap fun o =>
    match o with
    | client.Object.ClusterRole r => some r
    | _ => none

/-- The storage classes among a list of objects. -/
def storageClasses (objects : List client.Object) : List storagev1.StorageClass :=
  objects.filterMap fun o =>
    match o with
    | client.Object.StorageClass c => some c
    | _ => none

/-- The required pod anti-affinity terms of a pod specification. -/
def antiAffinityTerms (spec : corev1.PodSpec) : List corev1.PodAffinityTerm :=
  match spec.Affinity with
  | some affinity =>
    match affinity.PodAntiAffinity with
    | some antiAffinity => antiAffinity.RequiredDuringSchedulingIgnoredDuringExecution
    | none => []
  | none => []

/-- Does a policy rule grant a verb on a resource of an API group? -/
def ruleGrants (rule : rbacv1.PolicyRule) (apiGroup resource verb : String) : Bool :=
  decide (apiGroup ∈ rule.APIGroups) && decide (resource ∈ rule.Resources) &&
    decide (verb ∈ rule.Verbs)

/-! ## Concrete collaborators used to exercise the theorems -/

/-- An image vector that finds every name. -/
def sampleFindImage (name : String) : Except Error imagevector.Image :=
  Except.ok { ref := "registry.local/" ++ name ++ ":v1" }

/-- A registry that serializes every object to an entry named after its kind and name. -/
def sampleSerialize (objects : List client.Object) : Except Error SeedResources :=
  Except.ok (objects.map fun o => (o.kind ++ "/" ++ o.name, []))

/-- Collaborators of a healthy installation; the API state counts the bundles applied. -/
def sampleExternal : External Nat :=
  { FindImage := sampleFindImage
    AddAllAndSerialize := sampleSerialize
    CreateForSeed := fun _ _ _ _ _ _ s => (none, s + 1)
    Delete := fun _ _ _ _ _ s => (none, s)
    WaitUntilDeleted := fun _ _ _ _ _ => (none, 0)
    SeedCsiDriverLvmResourceName := "extension-csi-driver-lvm" }

/-- Collaborators whose orchestration API rejects every bundle apply. -/
def rejectingExternal : External Nat :=
  { sampleExternal with
    CreateForSeed := fun _ _ _ _ _ _ s => (some (Error.New "forbidden"), s) }

/-- Collaborators whose image vector lacks the `livenessprobe` image. -/
def missingImageExternal : External Nat :=
  { sampleExternal with
    FindImage := fun name =>
      if name = "livenessprobe" then Except.error (Error.New "image not found")
      else sampleFindImage name }

/-- Collaborators whose delete is rejected by the orchestration API. -/
def deleteRejectingExternal : External Nat :=
  { sampleExternal with
    Delete := fun _ _ _ _ _ s => (some (Error.New "forbidden"), s) }

/-- A strict decoder for a toy encoding: byte 1 sets `hostWritePath` to `/data/lvm`,
byte 2 sets `devicePattern` to `/dev/nvme*`, any other byte is an unknown field. -/
def sampleDecode : List Nat → v1alpha1.CsiDriverLvmConfig →
    Except Error v1alpha1.CsiDriverLvmConfig
  | [], into => Except.ok into
  | 1 :: rest, into => sampleDecode rest { into with HostWritePath := some "/data/lvm" }
  | 2 :: rest, into => sampleDecode rest { into with DevicePattern := some "/dev/nvme*" }
  | _ :: _, _ => Except.error (Error.New "unknown field")

/-- An actuator whose operator configuration defaults the device pattern only. -/
def sampleActuator : actuator :=
  { client := { id := 0 }
    decoder := { Decode := sampleDecode }
    config := { DefaultDevicePattern := some "/dev/sd*" } }

/-- An actuator whose operator configuration defaults both fields. -/
def defaultingActuator : actuator :=
  { client := { id := 0 }
    decoder := { Decode := sampleDecode }
    config := { DefaultHostWritePath := some "/var/lib/lvm"
                DefaultDevicePattern := some "/dev/sd*" } }

/-- An extension resource without provider configuration. -/
def bareExtension : extensionsv1alpha1.Extension :=
  { ObjectMeta := { Name := "csi-driver-lvm", Namespace := "shoot--test" } }

/-- An extension resource whose provider configuration sets `hostWritePath`. -/
def hostPathExtension : extensionsv1alpha1.Extension :=
  { bareExtension with Spec := { ProviderConfig := some { Raw := [1] } } }

/-- An extension resource whose provider configuration does not decode. -/
def malformedExtension : extensionsv1alpha1.Extension :=
  { bareExtension with Spec := { ProviderConfig := some { Raw := [7] } } }

/-- An extension resource whose provider configuration sets both fields. -/
def fullExtension : extensionsv1alpha1.Extension :=
  { bareExtension with Spec := { ProviderConfig := some { Raw := [1, 2] } } }

/-- A fresh world: no bundle applied, no call made. -/
def sampleWorld : World Nat := { api := 0, calls := [] }

/-- The context of the caller in the examples. -/
def sampleCtx : context.Context := context.Context.ofCaller 0

/-- The logger of the caller in the examples. -/
def sampleLog : logr.Logger := { name := "csi-driver-lvm" }

/-! ## Lemmas on the builders and on the stages of `Reconcile` -/

section Lemmas
variable {σ : Type}

/-- `controllerObjects` at the first image it fails to find: nil objects, the wrapped
lookup error, and the lookups made up to that image. -/
theorem controllerObjects_failure (E : External σ) (a : actuator) (ns : String) (w : World σ)
    (name : String) (err : Error)
    (h : firstFailure E controllerImageNames = some (name, err)) :
    a.controllerObjects E ns w =
      ((none, some (fmt.Errorf ("failed to find " ++ name ++ " image: %w") err)),
       { api := w.api
         calls := w.calls ++ (attempted E controllerImageNames).map Call.FindImage }) := by
  unfold actuator.controllerObjects findImage
  cases h1 : E.FindImage "csi-attacher" <;> cases h2 : E.FindImage "csi-resizer" <;>
    simp [firstFailure, attempted, controllerImageNames, World.record, h1, h2] at h ⊢ <;>
    obtain ⟨rfl, rfl⟩ := h <;> rfl

/-- `controllerObjects` when both images are found. -/
theorem controllerObjects_success (E : External σ) (a : actuator) (ns : String) (w : World σ)
    (h : firstFailure E controllerImageNames = none) :
    a.controllerObjects E ns w =
      ((some (controllerObjectList E ns), none),
       { api := w.api, calls := w.calls ++ controllerImageNames.map Call.FindImage }) := by
  unfold actuator.controllerObjects findImage
  cases h1 : E.FindImage "csi-attacher" <;> cases h2 : E.FindImage "csi-resizer" <;>
    simp [firstFailure, controllerImageNames, controllerObjectList, foundImage, World.record,
      h1, h2] at h ⊢

/-- `pluginObjects` at the first image it fails to find: nil objects, the wrapped
lookup error, and the lookups made up to that image. -/
theorem pluginObjects_failure (E : External σ) (a : actuator) (ns : String)
    (cfg : v1alpha1.CsiDriverLvmConfig) (log : logr.Logger) (w : World σ)
    (name : String) (err : Error)
    (h : firstFailure E pluginImageNames = some (name, err)) :
    a.pluginObjects E ns cfg log w =
      ((none, some (fmt.Errorf ("failed to find " ++ name ++ " image: %w") err)),
       { api := w.api
         calls := w.calls ++ (attempted E pluginImageNames).map Call.FindImage }) := by
  unfold actuator.pluginObjects findImage
  cases h1 : E.FindImage "csi-node-driver-registrar" <;>
  cases h2 : E.FindImage "livenessprobe" <;>
  cases h3 : E.FindImage "csi-driver-lvm" <;>
  cases h4 : E.FindImage "csi-driver-lvm-provisioner" <;>
    simp [firstFailure, attempted, pluginImageNames, World.record, h1, h2, h3, h4] at h ⊢ <;>
    obtain ⟨rfl, rfl⟩ := h <;> rfl

/-- `pluginObjects` when all four images are found. -/
theorem pluginObjects_success (E : External σ) (a : actuator) (ns : String)
    (cfg : v1alpha1.CsiDriverLvmConfig) (log : logr.Logger) (w : World σ)
    (h : firstFailure E pluginImageNames = none) :
    a.pluginObjects E ns cfg log w =
      ((some (pluginObjectList E ns cfg), none),
       { api := w.api, calls := w.calls ++ pluginImageNames.map Call.FindImage }) := by
  unfold actuator.pluginObjects findImage
  cases h1 : E.FindImage "csi-node-driver-registrar" <;>
  cases h2 : E.FindImage "livenessprobe" <;>
  cases h3 : E.FindImage "csi-driver-lvm" <;>
  cases h4 : E.FindImage "csi-driver-lvm-provisioner" <;>
    simp [firstFailure, pluginImageNames, pluginObjectList, foundImage, World.record,
      h1, h2, h3, h4] at h ⊢

/-- The first failure of two lists in sequence is that of the first list, if any. -/
theorem firstFailure_append (E : External σ) (l1 l2 : List String) :
    firstFailure E (l1 ++ l2) =
      match firstFailure E l1 with
      | some x => some x
      | none => firstFailure E l2 := by
  induction l1 with
  | nil => simp [firstFailure]
  | cons name rest ih =>
    simp only [List.cons_append, firstFailure]
    cases E.FindImage name <;> simp [ih]

/-- The lookups attempted on two lists in sequence. -/
theorem attempted_append (E : External σ) (l1 l2 : List String) :
    attempted E (l1 ++ l2) =
      match firstFailure E l1 with
      | some _ => attempted E l1
      | none => l1 ++ attempted E l2 := by
  induction l1 with
  | nil => simp [firstFailure, attempted]
  | cons name rest ih =>
    simp only [List.cons_append, firstFailure, attempted]
    cases E.FindImage name
    · simp
    · cases hr : firstFailure E rest <;> simp [hr] at ih ⊢ <;> exact ih

/-- The decode step without provider configuration. -/
theorem decodeProviderConfig_absent (a : actuator) (ex : extensionsv1alpha1.Extension)
    (w : World σ) (h : ex.Spec.ProviderConfig = none) :
    Reconcile.decodeProviderConfig a ex w = (Except.ok {}, w) := by
  simp [Reconcile.decodeProviderConfig, h]

/-- The decode step with a provider configuration. -/
theorem decodeProviderConfig_present (a : actuator) (ex : extensionsv1alpha1.Extension)
    (w : World σ) (providerConfig : runtime.RawExtension)
    (h : ex.Spec.ProviderConfig = some providerConfig) :
    Reconcile.decodeProviderConfig a ex w =
      (match a.decoder.Decode providerConfig.Raw {} with
       | Except.error err =>
         Except.error (fmt.Errorf "failed to decode provider config: %w" err)
       | Except.ok decoded => Except.ok decoded,
       w.record (Call.Decode providerConfig.Raw)) := by
  simp only [Reconcile.decodeProviderConfig, h, decoderDecode]
  cases a.decoder.Decode providerConfig.Raw {} <;> rfl

/-- `Reconcile` when the decode step fails. -/
theorem Reconcile_decode_error (E : External σ) (a : actuator) (ctx : context.Context)
    (log : logr.Logger) (ex : extensionsv1alpha1.Extension) (w w1 : World σ) (err : Error)
    (hd : Reconcile.decodeProviderConfig a ex w = (Except.error err, w1)) :
    a.Reconcile E ctx log ex w = { err := some err, self := a, world := w1 } := by
  simp [actuator.Reconcile, hd]

/-- `Reconcile` when the decode step succeeds and an image is not found. -/
theorem Reconcile_build_error (E : External σ) (a : actuator) (ctx : context.Context)
    (log : logr.Logger) (ex : extensionsv1alpha1.Extension) (w w1 : World σ)
    (decoded : v1alpha1.CsiDriverLvmConfig) (name : String) (err : Error)
    (hd : Reconcile.decodeProviderConfig a ex w = (Except.ok decoded, w1))
    (hf : firstFailure E imageNames = some (name, err)) :
    a.Reconcile E ctx log ex w =
      { err := some (fmt.Errorf ("failed to find " ++ name ++ " image: %w") err)
        self := a
        world := { api := w1.api
                   calls := w1.calls ++ (attempted E imageNames).map Call.FindImage } } := by
  have hatt := attempted_append E controllerImageNames pluginImageNames
  rw [imageNames, firstFailure_append] at hf
  rw [imageNames, hatt]
  cases hc : firstFailure E controllerImageNames with
  | some x =>
    obtain ⟨n, e⟩ := x
    simp only [hc] at hf ⊢
    obtain ⟨rfl, rfl⟩ := Prod.mk.inj (Option.some.inj hf)
    simp [actuator.Reconcile, hd, controllerObjects_failure E a namespace_ w1 n e hc]
  | none =>
    simp only [hc] at hf ⊢
    simp [actuator.Reconcile, hd, controllerObjects_success E a namespace_ w1 hc,
      pluginObjects_failure E a namespace_ _ log _ name err hf]

/-- `Reconcile` when the build succeeds and serialization fails. -/
theorem Reconcile_serialize_error (E : External σ) (a : actuator) (ctx : context.Context)
    (log : logr.Logger) (ex : extensionsv1alpha1.Extension) (w w1 : World σ)
    (decoded : v1alpha1.CsiDriverLvmConfig) (err : Error)
    (hd : Reconcile.decodeProviderConfig a ex w = (Except.ok decoded, w1))
    (hf : firstFailure E imageNames = none)
    (hs : E.AddAllAndSerialize (controllerObjectList E namespace_ ++
      pluginObjectList E namespace_ (Reconcile.applyDefaults a decoded)) = Except.error err) :
    a.Reconcile E ctx log ex w =
      { err := some err
        self := a
        world := { api := w1.api
                   calls := w1.calls ++ imageNames.map Call.FindImage ++
                     [Call.AddAllAndSerialize (controllerObjectList E namespace_ ++
                       pluginObjectList E namespace_ (Reconcile.applyDefaults a decoded))] } } := by
  rw [imageNames, firstFailure_append] at hf
  cases hc : firstFailure E controllerImageNames with
  | some x => simp [hc] at hf
  | none =>
    simp only [hc] at hf
    simp [actuator.Reconcile, hd, controllerObjects_success E a namespace_ w1 hc,
      pluginObjects_success E a namespace_ _ log _ hf, addAllAndSerialize, hs, World.record,
      imageNames]

/-- `Reconcile` when serialization succeeds: the bundle is applied, nil is returned
whatever the apply returns, and the success is logged only when the apply succeeds. -/
theorem Reconcile_applied (E : External σ) (a : actuator) (ctx : context.Context)
    (log : logr.Logger) (ex : extensionsv1alpha1.Extension) (w w1 : World σ)
    (decoded : v1alpha1.CsiDriverLvmConfig) (seedResources : SeedResources)
    (hd : Reconcile.decodeProviderConfig a ex w = (Except.ok decoded, w1))
    (hf : firstFailure E imageNames = none)
    (hs : E.AddAllAndSerialize (controllerObjectList E namespace_ ++
      pluginObjectList E namespace_ (Reconcile.applyDefaults a decoded)) =
        Except.ok seedResources) :
    a.Reconcile E ctx log ex w =
      { err := none
        self := a
        world :=
          { api := (E.CreateForSeed ctx a.client namespace_ E.SeedCsiDriverLvmResourceName
              false seedResources w1.api).2
            calls := w1.calls ++ imageNames.map Call.FindImage ++
              [Call.AddAllAndSerialize (controllerObjectList E namespace_ ++
                  pluginObjectList E namespace_ (Reconcile.applyDefaults a decoded)),
               Call.CreateForSeed ctx a.client namespace_ E.SeedCsiDriverLvmResourceName
                  false seedResources] ++
              (match (E.CreateForSeed ctx a.client namespace_ E.SeedCsiDriverLvmResourceName
                  false seedResources w1.api).1 with
               | some _ => []
               | none => [Call.Info log "managed resource created succesfully"
                           ["name", E.SeedCsiDriverLvmResourceName]]) } } := by
  rw [imageNames, firstFailure_append] at hf
  cases hc : firstFailure E controllerImageNames with
  | some x => simp [hc] at hf
  | none =>
    simp only [hc] at hf
    cases hr : (E.CreateForSeed ctx a.client namespace_ E.SeedCsiDriverLvmResourceName
                  false seedResources w1.api).1 <;>
    simp [actuator.Reconcile, hd, controllerObjects_success E a namespace_ w1 hc,
      pluginObjects_success E a namespace_ _ log _ hf, addAllAndSerialize, hs, World.record,
      imageNames, createForSeed, logInfo, hr]

/-- The decode step leaves the orchestration API alone and logs at most one decode. -/
theorem decodeProviderConfig_world (a : actuator) (ex : extensionsv1alpha1.Extension)
    (w : World σ) :
    (Reconcile.decodeProviderConfig a ex w).2 =
      { api := w.api
        calls := w.calls ++
          (match ex.Spec.ProviderConfig with
           | some providerConfig => [Call.Decode providerConfig.Raw]
           | none => []) } := by
  cases h : ex.Spec.ProviderConfig with
  | none => simp [decodeProviderConfig_absent a ex w h]
  | some providerConfig => simp [decodeProviderConfig_present a ex w providerConfig h, World.record]

/-- The first failure is a name of the list that fails, all names before it being found. -/
theorem firstFailure_mem (E : External σ) (l : List String) (name : String) (err : Error)
    (h : firstFailure E l = some (name, err)) :
    ∃ before after, l = before ++ name :: after ∧
      (∀ n ∈ before, ∃ image, E.FindImage n = Except.ok image) ∧
      E.FindImage name = Except.error err := by
  induction l with
  | nil => simp [firstFailure] at h
  | cons head rest ih =>
    simp only [firstFailure] at h
    cases hf : E.FindImage head with
    | error e =>
      simp only [hf, Option.some.injEq, Prod.mk.injEq] at h
      obtain ⟨rfl, rfl⟩ := h
      exact ⟨[], rest, rfl, by simp, hf⟩
    | ok image =>
      simp only [hf] at h
      obtain ⟨before, after, hl, hb, he⟩ := ih h
      refine ⟨head :: before, after, by simp [hl], ?_, he⟩
      intro n hn
      rcases List.mem_cons.mp hn with rfl | hn
      · exact ⟨image, hf⟩
      · exact hb n hn

/-- Without a first failure every name of the list is found. -/
theorem firstFailure_none (E : External σ) (l : List String) (h : firstFailure E l = none)
    (name : String) (hmem : name ∈ l) : ∃ image, E.FindImage name = Except.ok image := by
  induction l with
  | nil => simp at hmem
  | cons head rest ih =>
    simp only [firstFailure] at h
    cases hf : E.FindImage head with
    | error e => simp [hf] at h
    | ok image =>
      simp only [hf] at h
      rcases List.mem_cons.mp hmem with rfl | hn
      · exact ⟨image, hf⟩
      · exact ih h hn

/-- A list with a failing name has a first failure. -/
theorem firstFailure_of_failure (E : External σ) (l : List String) (name : String) (err : Error)
    (hmem : name ∈ l) (hf : E.FindImage name = Except.error err) :
    ∃ first firstErr, firstFailure E l = some (first, firstErr) := by
  cases h : firstFailure E l with
  | some x => exact ⟨x.1, x.2, rfl⟩
  | none =>
    obtain ⟨image, himage⟩ := firstFailure_none E l h name hmem
    rw [hf] at himage
    cases himage

/-- Serialized object lists of two logs in sequence. -/
theorem serializedObjects_append (l1 l2 : List Call) :
    serializedObjects (l1 ++ l2) = serializedObjects l1 ++ serializedObjects l2 := by
  simp [serializedObjects]

/-- Applied bundles of two logs in sequence. -/
theorem appliedBundles_append (l1 l2 : List Call) :
    appliedBundles (l1 ++ l2) = appliedBundles l1 ++ appliedBundles l2 := by
  simp [appliedBundles]

/-- Image lookups serialize nothing. -/
theorem serializedObjects_findImage (l : List String) :
    serializedObjects (l.map Call.FindImage) = [] := by
  induction l with
  | nil => rfl
  | cons name rest ih => simp [serializedObjects]

/-- Image lookups apply nothing. -/
theorem appliedBundles_findImage (l : List String) :
    appliedBundles (l.map Call.FindImage) = [] := by
  induction l with
  | nil => rfl
  | cons name rest ih => simp [appliedBundles]

/-- Calls made by `Reconcile` after a successful decode step: none of them is a
decode; the object lists serialized and the bundles applied are determined by the
image lookups, the merged configuration and the serializer. -/
theorem Reconcile_calls_after_decode (E : External σ) (a : actuator) (ctx : context.Context)
    (log : logr.Logger) (ex : extensionsv1alpha1.Extension) (w w1 : World σ)
    (decoded : v1alpha1.CsiDriverLvmConfig)
    (hd : Reconcile.decodeProviderConfig a ex w = (Except.ok decoded, w1)) :
    ∃ made, (a.Reconcile E ctx log ex w).world.calls = w1.calls ++ made ∧
      (∀ c ∈ made, c.isDecode = false) ∧
      serializedObjects made =
        (match firstFailure E imageNames with
         | none => [controllerObjectList E namespace_ ++
             pluginObjectList E namespace_ (Reconcile.applyDefaults a decoded)]
         | some _ => []) ∧
      appliedBundles made =
        (match firstFailure E imageNames,
           E.AddAllAndSerialize (controllerObjectList E namespace_ ++
             pluginObjectList E namespace_ (Reconcile.applyDefaults a decoded)) with
         | none, Except.ok seedResources =>
           [(namespace_, E.SeedCsiDriverLvmResourceName, seedResources)]
         | _, _ => []) ∧
      (∀ failure, firstFailure E imageNames = some failure →
        (a.Reconcile E ctx log ex w).world.api = w1.api ∧ ∀ c ∈ made, c.isApply = false) := by
  cases hf : firstFailure E imageNames with
  | some failure =>
    obtain ⟨name, err⟩ := failure
    rw [Reconcile_build_error E a ctx log ex w w1 decoded name err hd hf]
    refine ⟨(attempted E imageNames).map Call.FindImage, rfl, ?_,
      serializedObjects_findImage _, appliedBundles_findImage _, ?_⟩
    · intro c hc
      obtain ⟨n, _, rfl⟩ := List.mem_map.mp hc
      rfl
    · intro failure _
      refine ⟨rfl, ?_⟩
      intro c hc
      obtain ⟨n, _, rfl⟩ := List.mem_map.mp hc
      rfl
  | none =>
    cases hs : E.AddAllAndSerialize (controllerObjectList E namespace_ ++
        pluginObjectList E namespace_ (Reconcile.applyDefaults a decoded)) with
    | error err =>
      rw [Reconcile_serialize_error E a ctx log ex w w1 decoded err hd hf hs]
      refine ⟨imageNames.map Call.FindImage ++ [Call.AddAllAndSerialize
        (controllerObjectList E namespace_ ++
        pluginObjectList E namespace_ (Reconcile.applyDefaults a decoded))], ?_, ?_, ?_, ?_, ?_⟩
      · simp
      · intro c hc
        rcases List.mem_append.mp hc with hc | hc
        · obtain ⟨n, _, rfl⟩ := List.mem_map.mp hc
          rfl
        · rw [List.mem_singleton.mp hc]
          rfl
      · rw [serializedObjects_append, serializedObjects_findImage]
        rfl
      · rw [appliedBundles_append, appliedBundles_findImage]
        rfl
      · intro failure hfail
        cases hfail
    | ok seedResources =>
      rw [Reconcile_applied E a ctx log ex w w1 decoded seedResources hd hf hs]
      refine ⟨imageNames.map Call.FindImage ++ [Call.AddAllAndSerialize
        (controllerObjectList E namespace_ ++
        pluginObjectList E namespace_ (Reconcile.applyDefaults a decoded)),
        Call.CreateForSeed ctx a.client namespace_ E.SeedCsiDriverLvmResourceName false
          seedResources] ++
        (match (E.CreateForSeed ctx a.client namespace_ E.SeedCsiDriverLvmResourceName
            false seedResources w1.api).1 with
         | some _ => []
         | none => [Call.Info log "managed resource created succesfully"
                     ["name", E.SeedCsiDriverLvmResourceName]]), ?_, ?_, ?_, ?_, ?_⟩
      · simp only [List.append_assoc]
      · intro c hc
        rcases List.mem_append.mp hc with hc | hc
        · rcases List.mem_append.mp hc with hc | hc
          · obtain ⟨n, _, rfl⟩ := List.mem_map.mp hc
            rfl
          · simp only [List.mem_cons, List.mem_singleton, List.not_mem_nil, or_false] at hc
            rcases hc with rfl | rfl <;> rfl
        · cases hr : (E.CreateForSeed ctx a.client namespace_ E.SeedCsiDriverLvmResourceName
            false seedResources w1.api).1 <;> simp [hr] at hc
          rw [hc]
          rfl
      · rw [serializedObjects_append, serializedObjects_append, serializedObjects_findImage]
        cases hr : (E.CreateForSeed ctx a.client namespace_ E.SeedCsiDriverLvmResourceName
            false seedResources w1.api).1 <;> rfl
      · rw [appliedBundles_append, appliedBundles_append, appliedBundles_findImage]
        cases hr : (E.CreateForSeed ctx a.client namespace_ E.SeedCsiDriverLvmResourceName
            false seedResources w1.api).1 <;> rfl
      · intro failure hfail
        cases hfail

/-- After the decode step, `Reconcile` uses the client and the configuration of the
actuator only: two actuators that agree on both and on the outcome of the decode step
reach the same result and the same world. -/
theorem Reconcile_after_decode_congr (E : External σ) (a1 a2 : actuator)
    (ctx : context.Context) (log : logr.Logger) (ex : extensionsv1alpha1.Extension)
    (w w1 : World σ) (decoded : v1alpha1.CsiDriverLvmConfig)
    (hclient : a2.client = a1.client) (hconfig : a2.config = a1.config)
    (hd1 : Reconcile.decodeProviderConfig a1 ex w = (Except.ok decoded, w1))
    (hd2 : Reconcile.decodeProviderConfig a2 ex w = (Except.ok decoded, w1)) :
    (a2.Reconcile E ctx log ex w).err = (a1.Reconcile E ctx log ex w).err ∧
    (a2.Reconcile E ctx log ex w).world = (a1.Reconcile E ctx log ex w).world := by
  have happly : Reconcile.applyDefaults a2 decoded = Reconcile.applyDefaults a1 decoded := by
    simp [Reconcile.applyDefaults, hconfig]
  cases hf : firstFailure E imageNames with
  | some failure =>
    obtain ⟨name, err⟩ := failure
    rw [Reconcile_build_error E a1 ctx log ex w w1 decoded name err hd1 hf,
      Reconcile_build_error E a2 ctx log ex w w1 decoded name err hd2 hf]
    exact ⟨rfl, rfl⟩
  | none =>
    cases hs : E.AddAllAndSerialize (controllerObjectList E namespace_ ++
        pluginObjectList E namespace_ (Reconcile.applyDefaults a1 decoded)) with
    | error err =>
      rw [Reconcile_serialize_error E a1 ctx log ex w w1 decoded err hd1 hf hs,
        Reconcile_serialize_error E a2 ctx log ex w w1 decoded err hd2 hf (happly ▸ hs)]
      simp only [happly, and_self]
    | ok seedResources =>
      rw [Reconcile_applied E a1 ctx log ex w w1 decoded seedResources hd1 hf hs,
        Reconcile_applied E a2 ctx log ex w w1 decoded seedResources hd2 hf (happly ▸ hs)]
      simp only [happly, hclient, and_self]

/-- When every name of a list is found there is no first failure. -/
theorem firstFailure_eq_none (E : External σ) (l : List String)
    (h : ∀ name ∈ l, ∃ image, E.FindImage name = Except.ok image) :
    firstFailure E l = none := by
  cases hf : firstFailure E l with
  | none => rfl
  | some failure =>
    obtain ⟨before, after, hl, _, he⟩ := firstFailure_mem E l failure.1 failure.2 hf
    obtain ⟨image, himage⟩ := h failure.1 (by rw [hl]; simp)
    rw [he] at himage
    cases himage

/-- The result of the decode step in terms of the outcome of the decoder. -/
theorem decodeProviderConfig_decodedConfig (a : actuator) (ex : extensionsv1alpha1.Extension)
    (w : World σ) :
    (Reconcile.decodeProviderConfig a ex w).1 =
      (match decodedConfig a ex with
       | Except.error err =>
         Except.error (fmt.Errorf "failed to decode provider config: %w" err)
       | Except.ok decoded => Except.ok decoded) := by
  cases h : ex.Spec.ProviderConfig with
  | none => simp [decodeProviderConfig_absent a ex w h, decodedConfig, h]
  | some providerConfig =>
    simp [decodeProviderConfig_present a ex w providerConfig h, decodedConfig, h]

/-- `Reconcile` returns the actuator it was called on. -/
theorem Reconcile_self (E : External σ) (a : actuator) (ctx : context.Context)
    (log : logr.Logger) (ex : extensionsv1alpha1.Extension) (w : World σ) :
    (a.Reconcile E ctx log ex w).self = a := by
  rcases hd : Reconcile.decodeProviderConfig a ex w with ⟨err | decoded, w1⟩
  · rw [Reconcile_decode_error E a ctx log ex w w1 err hd]
  · cases hf : firstFailure E imageNames with
    | some failure =>
      rw [Reconcile_build_error E a ctx log ex w w1 decoded failure.1 failure.2 hd hf]
    | none =>
      cases hs : E.AddAllAndSerialize (controllerObjectList E namespace_ ++
          pluginObjectList E namespace_ (Reconcile.applyDefaults a decoded)) with
      | error err => rw [Reconcile_serialize_error E a ctx log ex w w1 decoded err hd hf hs]
      | ok seedResources =>
        rw [Reconcile_applied E a ctx log ex w w1 decoded seedResources hd hf hs]

/-- Every run of `Reconcile` extends the call log, and the object lists it serializes
and the bundles it applies are the planned ones. -/
theorem Reconcile_made (E : External σ) (a : actuator) (ctx : context.Context)
    (log : logr.Logger) (ex : extensionsv1alpha1.Extension) (w : World σ) :
    ∃ made, (a.Reconcile E ctx log ex w).world.calls = w.calls ++ made ∧
      serializedObjects made = plannedObjects E a ex ∧
      appliedBundles made = plannedBundles E a ex := by
  have hworld := decodeProviderConfig_world a ex w
  have hfst := decodeProviderConfig_decodedConfig a ex w
  have hdc : serializedObjects (match ex.Spec.ProviderConfig with
        | some providerConfig => [Call.Decode providerConfig.Raw]
        | none => []) = [] ∧
      appliedBundles (match ex.Spec.ProviderConfig with
        | some providerConfig => [Call.Decode providerConfig.Raw]
        | none => []) = [] := by
    cases ex.Spec.ProviderConfig <;> exact ⟨rfl, rfl⟩
  rcases hd : Reconcile.decodeProviderConfig a ex w with ⟨err | decoded, w1⟩
  · rw [hd] at hworld hfst
    simp only at hworld hfst
    rw [Reconcile_decode_error E a ctx log ex w w1 err hd, hworld]
    refine ⟨_, rfl, ?_, ?_⟩
    · rw [hdc.1]
      cases hdec : decodedConfig a ex <;> simp [hdec] at hfst
      simp [plannedObjects, hdec]
    · rw [hdc.2]
      cases hdec : decodedConfig a ex <;> simp [hdec] at hfst
      simp [plannedBundles, plannedObjects, hdec]
  · obtain ⟨made, hcalls, _, hser, happl, _⟩ :=
      Reconcile_calls_after_decode E a ctx log ex w w1 decoded hd
    rw [hd] at hworld hfst
    simp only at hworld hfst
    have hdec : decodedConfig a ex = Except.ok decoded := by
      cases hdec : decodedConfig a ex <;> simp [hdec] at hfst
      rw [hfst]
    rw [hcalls, hworld]
    refine ⟨_, List.append_assoc _ _ _, ?_, ?_⟩
    · rw [serializedObjects_append, hdc.1, hser]
      simp only [plannedObjects, hdec, List.nil_append]
      cases firstFailure E imageNames <;> rfl
    · rw [appliedBundles_append, hdc.2, happl]
      simp only [plannedBundles, plannedObjects, hdec, List.nil_append]
      cases hf : firstFailure E imageNames with
      | some failure => rfl
      | none =>
        cases hs : E.AddAllAndSerialize (controllerObjectList E namespace_ ++
          pluginObjectList E namespace_ (Reconcile.applyDefaults a decoded)) <;>
        simp [hs]

/-- The first failure depends on the collaborators through the image lookups only. -/
theorem firstFailure_congr {τ : Type} (E1 : External σ) (E2 : External τ)
    (himages : E2.FindImage = E1.FindImage) (l : List String) :
    firstFailure E2 l = firstFailure E1 l := by
  induction l with
  | nil => rfl
  | cons name rest ih => simp only [firstFailure, himages, ih]

/-- The planned object lists and bundles depend on the collaborators through the image
lookups, the serializer and the managed-resource name only, on the actuator through
its decoder and configuration only, and on the extension resource through its
provider configuration only. -/
theorem planned_congr {τ : Type} (E1 : External σ) (E2 : External τ) (a1 a2 : actuator)
    (ex1 ex2 : extensionsv1alpha1.Extension)
    (himages : E2.FindImage = E1.FindImage)
    (hserialize : E2.AddAllAndSerialize = E1.AddAllAndSerialize)
    (hname : E2.SeedCsiDriverLvmResourceName = E1.SeedCsiDriverLvmResourceName)
    (hdecoder : a2.decoder.Decode = a1.decoder.Decode) (hconfig : a2.config = a1.config)
    (hpc : ex2.Spec.ProviderConfig = ex1.Spec.ProviderConfig) :
    plannedObjects E2 a2 ex2 = plannedObjects E1 a1 ex1 ∧
    plannedBundles E2 a2 ex2 = plannedBundles E1 a1 ex1 := by
  have h1 : plannedObjects E2 a2 ex2 = plannedObjects E1 a1 ex1 := by
    simp only [plannedObjects, decodedConfig, hpc, hdecoder, firstFailure_congr E1 E2 himages,
      controllerObjectList, pluginObjectList, foundImage, himages, Reconcile.applyDefaults,
      hconfig]
  exact ⟨h1, by simp only [plannedBundles, h1, hserialize, hname]⟩

/-- A successful decode step as a pair. -/
theorem decodeProviderConfig_eq (a : actuator) (ex : extensionsv1alpha1.Extension)
    (w : World σ) (decoded : v1alpha1.CsiDriverLvmConfig)
    (hd : (Reconcile.decodeProviderConfig a ex w).1 = Except.ok decoded) :
    Reconcile.decodeProviderConfig a ex w =
      (Except.ok decoded, (Reconcile.decodeProviderConfig a ex w).2) := by
  rw [← hd]

/-- The thirteen (kind, name) pairs of the built objects are pairwise distinct. -/
theorem objectKeys_nodup (E : External σ) (ns : String) (cfg : v1alpha1.CsiDriverLvmConfig) :
    ((controllerObjectList E ns ++ pluginObjectList E ns cfg).map
      fun o => (o.kind, o.name)).Nodup := by
  have hkeys : ((controllerObjectList E ns ++ pluginObjectList E ns cfg).map
      fun o => (o.kind, o.name)) =
      [("ServiceAccount", "csi-driver-lvm-controller"),
       ("ClusterRole", "csi-driver-lvm-controller"),
       ("ClusterRoleBinding", "csi-driver-lvm-controller"),
       ("StatefulSet", "csi-driver-lvm-controller"),
       ("CSIDriver", "csi-driver-lvm"),
       ("ServiceAccount", "csi-driver-lvm-plugin"),
       ("ClusterRole", "csi-driver-lvm-plugin"),
       ("ClusterRoleBinding", "csi-driver-lvm-plugin"),
       ("StorageClass", "csi-lvm"),
       ("StorageClass", "csi-driver-lvm-linear"),
       ("StorageClass", "csi-driver-lvm-mirror"),
       ("StorageClass", "csi-driver-lvm-striped"),
       ("DaemonSet", "csi-driver-lvm-plugin")] := rfl
  rw [hkeys]
  decide

/-- The command line of the driver container for a provider configuration and a
provisioner image, as `pluginObjects` builds it. -/
theorem containerArgs_pluginObjectList (E : External σ) (ns : String)
    (cfg : v1alpha1.CsiDriverLvmConfig) :
    containerArgs "csi-driver-lvm-plugin" (pluginObjectList E ns cfg) =
      [[ "--drivername=lvm.csi.metal-stack.io",
         "--endpoint=unix:///csi/csi.sock",
         "--hostwritepath=" ++ pointer.SafeDeref cfg.HostWritePath,
         "--devices=" ++ pointer.SafeDeref cfg.HostWritePath,
         "--nodeid=$(KUBE_NODE_NAME)",
         "--vgname=csi-lvm",
         "--namespace=kube-system",
         "--provisionerImage=" ++ (foundImage E "csi-driver-lvm-provisioner").String,
         "--pullpolicy=IfNotPresent" ]] := by
  simp [containerArgs, daemonSets, pluginObjectList, csidriverlvmDaemonSetPlugin,
    registrarContainer, driverContainer, livenessprobeContainer]

/-- `Reconcile` after a successful decode step is the build on the merged
configuration. -/
theorem Reconcile_eq_build (E : External σ) (a : actuator) (ctx : context.Context)
    (log : logr.Logger) (ex : extensionsv1alpha1.Extension) (w w1 : World σ)
    (decoded : v1alpha1.CsiDriverLvmConfig)
    (hd : Reconcile.decodeProviderConfig a ex w = (Except.ok decoded, w1)) :
    a.Reconcile E ctx log ex w =
      Reconcile.build E a ctx log (Reconcile.applyDefaults a decoded) w1 := by
  simp only [actuator.Reconcile, hd, Reconcile.build]

/-- The serialized list of a full build carries the `hostWritePath` of the merged
configuration on the command line of the driver. -/
theorem Reconcile_hostwritepath_flag (E : External σ) (a : actuator) (ctx : context.Context)
    (log : logr.Logger) (ex : extensionsv1alpha1.Extension) (w : World σ)
    (decoded : v1alpha1.CsiDriverLvmConfig)
    (hdec : decodedConfig a ex = Except.ok decoded)
    (himages : ∀ name ∈ imageNames, ∃ image, E.FindImage name = Except.ok image) :
    ∃ made objects args,
      (a.Reconcile E ctx log ex w).world.calls = w.calls ++ made ∧
      serializedObjects made = [objects] ∧
      containerArgs "csi-driver-lvm-plugin" objects = [args] ∧
      ("--hostwritepath=" ++
        pointer.SafeDeref (Reconcile.applyDefaults a decoded).HostWritePath) ∈ args := by
  have hf := firstFailure_eq_none E imageNames himages
  obtain ⟨made, hcalls, hser, _⟩ := Reconcile_made E a ctx log ex w
  have hargs : containerArgs "csi-driver-lvm-plugin" (controllerObjectList E namespace_ ++
      pluginObjectList E namespace_ (Reconcile.applyDefaults a decoded)) =
      containerArgs "csi-driver-lvm-plugin"
        (pluginObjectList E namespace_ (Reconcile.applyDefaults a decoded)) := rfl
  refine ⟨made, _, _, hcalls, ?_, hargs.trans (containerArgs_pluginObjectList E namespace_ _), ?_⟩
  · rw [hser]
    simp only [plannedObjects, hdec, hf]
  · simp

end Lemmas
/-! ## The claims -/

section Claims
variable {σ : Type}

/-- C1: the configuration merge of `Reconcile`, for every extension resource, decoder
and operator configuration. When the decoder succeeds on the raw bytes of the provider
configuration, `Reconcile` is exactly the build run on the merged configuration, whose
`hostWritePath` is the decoded one when it is set and the operator default otherwise,
and whose `devicePattern` independently is the decoded one when it is set and the
operator default otherwise; the merge itself adds no error and no call. Without
provider configuration `Reconcile` is the build run on the two operator defaults, and
so is it for a decoded configuration with both fields unset (up to the decode call in
the log and the type information of the decoded value). When all images are found,
the object list `Reconcile` serializes carries the merged `hostWritePath` in the
`--hostwritepath=` flag of the driver. -/
theorem Reconcile_merges_defaults (E : External σ) (a : actuator) (ctx : context.Context)
    (log : logr.Logger) (ex : extensionsv1alpha1.Extension) (w : World σ) :
    (ex.Spec.ProviderConfig = none →
      a.Reconcile E ctx log ex w =
        Reconcile.build E a ctx log
          { Kind := "", APIVersion := "",
            HostWritePath := a.config.DefaultHostWritePath,
            DevicePattern := a.config.DefaultDevicePattern } w ∧
      ((∀ name ∈ imageNames, ∃ image, E.FindImage name = Except.ok image) →
        ∃ made objects args,
          (a.Reconcile E ctx log ex w).world.calls = w.calls ++ made ∧
          serializedObjects made = [objects] ∧
          containerArgs "csi-driver-lvm-plugin" objects = [args] ∧
          ("--hostwritepath=" ++ pointer.SafeDeref a.config.DefaultHostWritePath) ∈ args)) ∧
    (∀ providerConfig decoded, ex.Spec.ProviderConfig = some providerConfig →
      a.decoder.Decode providerConfig.Raw {} = Except.ok decoded →
      a.Reconcile E ctx log ex w =
        Reconcile.build E a ctx log
          { Kind := decoded.Kind, APIVersion := decoded.APIVersion,
            HostWritePath :=
              (match decoded.HostWritePath with
               | some hostWritePath => some hostWritePath
               | none => a.config.DefaultHostWritePath),
            DevicePattern :=
              (match decoded.DevicePattern with
               | some devicePattern => some devicePattern
               | none => a.config.DefaultDevicePattern) }
          (w.record (Call.Decode providerConfig.Raw)) ∧
      (decoded.HostWritePath = none → decoded.DevicePattern = none →
        a.Reconcile E ctx log ex w =
          Reconcile.build E a ctx log
            { Kind := decoded.Kind, APIVersion := decoded.APIVersion,
              HostWritePath := a.config.DefaultHostWritePath,
              DevicePattern := a.config.DefaultDevicePattern }
            (w.record (Call.Decode providerConfig.Raw))) ∧
      ((∀ name ∈ imageNames, ∃ image, E.FindImage name = Except.ok image) →
        ∃ made objects args,
          (a.Reconcile E ctx log ex w).world.calls = w.calls ++ made ∧
          serializedObjects made = [objects] ∧
          containerArgs "csi-driver-lvm-plugin" objects = [args] ∧
          ("--hostwritepath=" ++ pointer.SafeDeref
            (match decoded.HostWritePath with
             | some hostWritePath => some hostWritePath
             | none => a.config.DefaultHostWritePath)) ∈ args)) := by
  constructor
  · intro habsent
    have hd := decodeProviderConfig_absent a ex w habsent
    have hdec : decodedConfig a ex = Except.ok {} := by simp [decodedConfig, habsent]
    have hmerged : Reconcile.applyDefaults a {} =
        { Kind := "", APIVersion := "",
          HostWritePath := a.config.DefaultHostWritePath,
          DevicePattern := a.config.DefaultDevicePattern } := by
      simp [Reconcile.applyDefaults]
    have hflag := Reconcile_hostwritepath_flag E a ctx log ex w {} hdec
    rw [hmerged] at hflag
    exact ⟨(Reconcile_eq_build E a ctx log ex w w {} hd).trans (by rw [hmerged]), hflag⟩
  · intro providerConfig decoded hpc hdecode
    have hd : Reconcile.decodeProviderConfig a ex w =
        (Except.ok decoded, w.record (Call.Decode providerConfig.Raw)) := by
      rw [decodeProviderConfig_present a ex w providerConfig hpc, hdecode]
    have hdec : decodedConfig a ex = Except.ok decoded := by
      simp [decodedConfig, hpc, hdecode]
    have hmerged : Reconcile.applyDefaults a decoded =
        { Kind := decoded.Kind, APIVersion := decoded.APIVersion,
          HostWritePath :=
            (match decoded.HostWritePath with
             | some hostWritePath => some hostWritePath
             | none => a.config.DefaultHostWritePath),
          DevicePattern :=
            (match decoded.DevicePattern with
             | some devicePattern => some devicePattern
             | none => a.config.DefaultDevicePattern) } := by
      rcases decoded with ⟨kind, apiVersion, _ | hostWritePath, _ | devicePattern⟩ <;>
        simp [Reconcile.applyDefaults]
    have hrun := (Reconcile_eq_build E a ctx log ex w _ decoded hd).trans
      (congrArg (fun merged => Reconcile.build E a ctx log merged
        (w.record (Call.Decode providerConfig.Raw))) hmerged)
    have hflag := Reconcile_hostwritepath_flag E a ctx log ex w decoded hdec
    rw [hmerged] at hflag
    refine ⟨hrun, ?_, hflag⟩
    intro hh hp
    rw [hrun]
    simp only [hh, hp]

/-- Two runs of `Reconcile`. The example of the specification: the provider
configuration decodes to `hostWritePath` `/data/lvm` with no `devicePattern` and the
operator defaults `devicePattern` to `/dev/sd*`; the run is the build on `/data/lvm`
and `/dev/sd*`, and the driver is started with `--hostwritepath=/data/lvm`. No
provider configuration under an operator configuration with both defaults: the run is
the build on the two defaults, and the driver is started with
`--hostwritepath=/var/lib/lvm`. -/
theorem Reconcile_merges_defaults_witness :
    sampleActuator.Reconcile sampleExternal sampleCtx sampleLog hostPathExtension sampleWorld =
      Reconcile.build sampleExternal sampleActuator sampleCtx sampleLog
        { HostWritePath := some "/data/lvm", DevicePattern := some "/dev/sd*" }
        (sampleWorld.record (Call.Decode [1])) ∧
    (∃ objects args,
      serializedObjects (sampleActuator.Reconcile sampleExternal sampleCtx sampleLog
        hostPathExtension sampleWorld).world.calls = [objects] ∧
      containerArgs "csi-driver-lvm-plugin" objects = [args] ∧
      "--hostwritepath=/data/lvm" ∈ args) ∧
    defaultingActuator.Reconcile sampleExternal sampleCtx sampleLog bareExtension sampleWorld =
      Reconcile.build sampleExternal defaultingActuator sampleCtx sampleLog
        { HostWritePath := some "/var/lib/lvm", DevicePattern := some "/dev/sd*" }
        sampleWorld ∧
    (∃ objects args,
      serializedObjects (defaultingActuator.Reconcile sampleExternal sampleCtx sampleLog
        bareExtension sampleWorld).world.calls = [objects] ∧
      containerArgs "csi-driver-lvm-plugin" objects = [args] ∧
      "--hostwritepath=/var/lib/lvm" ∈ args) := by
  obtain ⟨hrun, _, hflag⟩ :=
    (Reconcile_merges_defaults sampleExternal sampleActuator sampleCtx sampleLog
      hostPathExtension sampleWorld).2 { Raw := [1] } { HostWritePath := some "/data/lvm" }
      rfl rfl
  obtain ⟨hrun0, hflag0⟩ :=
    (Reconcile_merges_defaults sampleExternal defaultingActuator sampleCtx sampleLog
      bareExtension sampleWorld).1 rfl
  obtain ⟨made, objects, args, hcalls, hser, hargs, hmem⟩ := hflag (fun _ _ => ⟨_, rfl⟩)
  obtain ⟨made0, objects0, args0, hcalls0, hser0, hargs0, hmem0⟩ :=
    hflag0 (fun _ _ => ⟨_, rfl⟩)
  refine ⟨hrun, ⟨objects, args, ?_, hargs, hmem⟩, hrun0, ⟨objects0, args0, ?_, hargs0, hmem0⟩⟩
  · rw [hcalls]
    exact hser
  · rw [hcalls0]
    exact hser0

/-- C2 (the code departs from the claim): whenever decoding succeeds, all six images
are found, serialization succeeds and `CreateForSeed` returns an error, `Reconcile`
returns nil; the rejected apply is the last call it made. -/
theorem Reconcile_apply_error_swallowed (E : External σ) (a : actuator) (ctx : context.Context)
    (log : logr.Logger) (ex : extensionsv1alpha1.Extension) (w : World σ)
    (decoded : v1alpha1.CsiDriverLvmConfig) (seedResources : SeedResources) (applyErr : Error)
    (hd : (Reconcile.decodeProviderConfig a ex w).1 = Except.ok decoded)
    (himages : ∀ name ∈ imageNames, ∃ image, E.FindImage name = Except.ok image)
    (hs : E.AddAllAndSerialize (controllerObjectList E namespace_ ++
      pluginObjectList E namespace_ (Reconcile.applyDefaults a decoded)) =
        Except.ok seedResources)
    (ha : (E.CreateForSeed ctx a.client namespace_ E.SeedCsiDriverLvmResourceName false
      seedResources w.api).1 = some applyErr) :
    (a.Reconcile E ctx log ex w).err = none ∧
    ∃ made, (a.Reconcile E ctx log ex w).world.calls =
      w.calls ++ made ++
        [Call.CreateForSeed ctx a.client namespace_ E.SeedCsiDriverLvmResourceName false
          seedResources] := by
  have hf := firstFailure_eq_none E imageNames himages
  have hworld := decodeProviderConfig_world a ex w
  have hapi : (Reconcile.decodeProviderConfig a ex w).2.api = w.api := by rw [hworld]
  rw [Reconcile_applied E a ctx log ex w _ decoded seedResources
    (decodeProviderConfig_eq a ex w decoded hd) hf hs, hapi, ha, hworld]
  refine ⟨rfl, (match ex.Spec.ProviderConfig with
      | some providerConfig => [Call.Decode providerConfig.Raw]
      | none => []) ++ imageNames.map Call.FindImage ++ [Call.AddAllAndSerialize
    (controllerObjectList E namespace_ ++
      pluginObjectList E namespace_ (Reconcile.applyDefaults a decoded))], ?_⟩
  simp

/-- An orchestration API that rejects every apply: `Reconcile` still reports success. -/
theorem Reconcile_apply_error_swallowed_witness :
    (∀ ctx c ns name keepObjects data s,
      (rejectingExternal.CreateForSeed ctx c ns name keepObjects data s).1 =
        some (Error.New "forbidden")) ∧
    (sampleActuator.Reconcile rejectingExternal sampleCtx sampleLog hostPathExtension
      sampleWorld).err = none :=
  ⟨fun _ _ _ _ _ _ _ => rfl,
   (Reconcile_apply_error_swallowed rejectingExternal sampleActuator sampleCtx sampleLog
    hostPathExtension sampleWorld { HostWritePath := some "/data/lvm" } _
    (Error.New "forbidden") rfl (fun _ _ => ⟨_, rfl⟩) rfl rfl).1⟩

/-- The host paths of the four LVM volumes for a provider configuration. -/
theorem hostPaths_pluginObjectList (E : External σ) (ns : String)
    (cfg : v1alpha1.CsiDriverLvmConfig) :
    hostPaths "lvmcache" (pluginObjectList E ns cfg) =
      [pointer.SafeDeref cfg.HostWritePath ++ "/cache"] ∧
    hostPaths "lvmarchive" (pluginObjectList E ns cfg) =
      [pointer.SafeDeref cfg.HostWritePath ++ "/archive"] ∧
    hostPaths "lvmbackup" (pluginObjectList E ns cfg) =
      [pointer.SafeDeref cfg.HostWritePath ++ "/backup"] ∧
    hostPaths "lvmlock" (pluginObjectList E ns cfg) =
      [pointer.SafeDeref cfg.HostWritePath ++ "/lock"] := by
  simp [hostPaths, daemonSets, pluginObjectList, csidriverlvmDaemonSetPlugin, pluginVolumes,
    hostPathVolume]

/-- C3 (the code departs from the claim): when the four plugin images are found,
`pluginObjects` succeeds and the command line of the driver container is the list
below, whose `--devices=` flag carries `hostWritePath`, not `devicePattern`. -/
theorem pluginObjects_devices_flag (E : External σ) (a : actuator) (ns : String)
    (cfg : v1alpha1.CsiDriverLvmConfig) (log : logr.Logger) (w : World σ)
    (himages : ∀ name ∈ pluginImageNames, ∃ image, E.FindImage name = Except.ok image) :
    ∃ objects provisionerImage,
      (a.pluginObjects E ns cfg log w).1 = (some objects, none) ∧
      E.FindImage "csi-driver-lvm-provisioner" = Except.ok provisionerImage ∧
      containerArgs "csi-driver-lvm-plugin" objects =
        [[ "--drivername=lvm.csi.metal-stack.io",
           "--endpoint=unix:///csi/csi.sock",
           "--hostwritepath=" ++ pointer.SafeDeref cfg.HostWritePath,
           "--devices=" ++ pointer.SafeDeref cfg.HostWritePath,
           "--nodeid=$(KUBE_NODE_NAME)",
           "--vgname=csi-lvm",
           "--namespace=kube-system",
           "--provisionerImage=" ++ provisionerImage.String,
           "--pullpolicy=IfNotPresent" ]] := by
  have hf := firstFailure_eq_none E pluginImageNames himages
  refine ⟨pluginObjectList E ns cfg, foundImage E "csi-driver-lvm-provisioner", ?_, ?_,
    containerArgs_pluginObjectList E ns cfg⟩
  · rw [pluginObjects_success E a ns cfg log w hf]
  · obtain ⟨image, himage⟩ := himages "csi-driver-lvm-provisioner" (by decide)
    simp [foundImage, himage]

/-- For the merged configuration with `hostWritePath` `/data/lvm` and `devicePattern`
`/dev/sd*` the driver is started with `--devices=/data/lvm`, and `--devices=/dev/sd*`
is not on its command line. -/
theorem pluginObjects_devices_flag_witness :
    ∃ objects,
      (sampleActuator.pluginObjects sampleExternal namespace_
        { HostWritePath := some "/data/lvm", DevicePattern := some "/dev/sd*" }
        sampleLog sampleWorld).1 = (some objects, none) ∧
      containerArgs "csi-driver-lvm-plugin" objects =
        [[ "--drivername=lvm.csi.metal-stack.io",
           "--endpoint=unix:///csi/csi.sock",
           "--hostwritepath=/data/lvm",
           "--devices=/data/lvm",
           "--nodeid=$(KUBE_NODE_NAME)",
           "--vgname=csi-lvm",
           "--namespace=kube-system",
           "--provisionerImage=registry.local/csi-driver-lvm-provisioner:v1",
           "--pullpolicy=IfNotPresent" ]] ∧
      ∀ args ∈ containerArgs "csi-driver-lvm-plugin" objects, "--devices=/dev/sd*" ∉ args := by
  obtain ⟨objects, image, h1, h2, h3⟩ := pluginObjects_devices_flag sampleExternal sampleActuator
    namespace_ { HostWritePath := some "/data/lvm", DevicePattern := some "/dev/sd*" }
    sampleLog sampleWorld (fun _ _ => ⟨_, rfl⟩)
  have himage : image = { ref := "registry.local/csi-driver-lvm-provisioner:v1" } :=
    (Except.ok.inj h2).symm
  subst himage
  refine ⟨objects, h1, h3, ?_⟩
  rw [h3]
  decide

/-- C4: when the four plugin images are found, `pluginObjects` succeeds for every
provider configuration; with `h` the merged `hostWritePath` (the empty string when
unset) the driver container carries the flag `--hostwritepath=h`, and the host path
volumes `lvmcache`, `lvmarchive`, `lvmbackup` and `lvmlock` have the paths `h/cache`,
`h/archive`, `h/backup` and `h/lock`. An empty `h` is not rejected: the paths are then
`/cache`, `/archive`, `/backup` and `/lock`. -/
theorem pluginObjects_hostwritepath (E : External σ) (a : actuator) (ns : String)
    (cfg : v1alpha1.CsiDriverLvmConfig) (log : logr.Logger) (w : World σ)
    (himages : ∀ name ∈ pluginImageNames, ∃ image, E.FindImage name = Except.ok image) :
    ∃ objects,
      (a.pluginObjects E ns cfg log w).1 = (some objects, none) ∧
      (∃ args, containerArgs "csi-driver-lvm-plugin" objects = [args] ∧
        ("--hostwritepath=" ++ pointer.SafeDeref cfg.HostWritePath) ∈ args) ∧
      hostPaths "lvmcache" objects = [pointer.SafeDeref cfg.HostWritePath ++ "/cache"] ∧
      hostPaths "lvmarchive" objects = [pointer.SafeDeref cfg.HostWritePath ++ "/archive"] ∧
      hostPaths "lvmbackup" objects = [pointer.SafeDeref cfg.HostWritePath ++ "/backup"] ∧
      hostPaths "lvmlock" objects = [pointer.SafeDeref cfg.HostWritePath ++ "/lock"] ∧
      (pointer.SafeDeref cfg.HostWritePath = "" →
        hostPaths "lvmcache" objects = ["/cache"] ∧
        hostPaths "lvmarchive" objects = ["/archive"] ∧
        hostPaths "lvmbackup" objects = ["/backup"] ∧
        hostPaths "lvmlock" objects = ["/lock"]) := by
  have hf := firstFailure_eq_none E pluginImageNames himages
  have hp := hostPaths_pluginObjectList E ns cfg
  refine ⟨pluginObjectList E ns cfg, ?_, ⟨_, containerArgs_pluginObjectList E ns cfg, ?_⟩,
    hp.1, hp.2.1, hp.2.2.1, hp.2.2.2, ?_⟩
  · rw [pluginObjects_success E a ns cfg log w hf]
  · simp
  · intro hempty
    rw [hempty] at hp
    exact hp

/-- The example of the specification: `hostWritePath` `/data/lvm` gives the lock
volume path `/data/lvm/lock`. -/
theorem pluginObjects_hostwritepath_witness :
    ∃ objects,
      (sampleActuator.pluginObjects sampleExternal namespace_
        { HostWritePath := some "/data/lvm", DevicePattern := some "/dev/sd*" }
        sampleLog sampleWorld).1 = (some objects, none) ∧
      hostPaths "lvmlock" objects = ["/data/lvm/lock"] := by
  obtain ⟨objects, h1, _, _, _, _, h5, _⟩ := pluginObjects_hostwritepath sampleExternal
    sampleActuator namespace_ { HostWritePath := some "/data/lvm", DevicePattern := some "/dev/sd*" }
    sampleLog sampleWorld (fun _ _ => ⟨_, rfl⟩)
  exact ⟨objects, h1, h5⟩

/-- C5: `Delete` first issues the bundle delete. If that returns an error, `Delete`
returns the same error and its only call is the delete. Otherwise it calls
`WaitUntilDeleted` exactly once, under a two minute timeout (120000000000 ns) on the
caller's context and with the namespace and bundle name of the delete, and returns
exactly what the wait returns. -/
theorem Delete_issues_then_waits (E : External σ) (a : actuator) (ctx : context.Context)
    (log : logr.Logger) (ex : extensionsv1alpha1.Extension) (w : World σ) :
    (a.Delete E ctx log ex w).self = a ∧
    (∀ err,
      (E.Delete ctx a.client "kube-system" E.SeedCsiDriverLvmResourceName false w.api).1 =
        some err →
      (a.Delete E ctx log ex w).err = some err ∧
      (a.Delete E ctx log ex w).world.api =
        (E.Delete ctx a.client "kube-system" E.SeedCsiDriverLvmResourceName false w.api).2 ∧
      (a.Delete E ctx log ex w).world.calls = w.calls ++
        [Call.Delete ctx a.client "kube-system" E.SeedCsiDriverLvmResourceName false]) ∧
    ((E.Delete ctx a.client "kube-system" E.SeedCsiDriverLvmResourceName false w.api).1 = none →
      (a.Delete E ctx log ex w).err =
        (E.WaitUntilDeleted (context.Context.withTimeout ctx 120000000000) a.client
          "kube-system" E.SeedCsiDriverLvmResourceName
          (E.Delete ctx a.client "kube-system" E.SeedCsiDriverLvmResourceName false w.api).2).1 ∧
      (a.Delete E ctx log ex w).world.api =
        (E.WaitUntilDeleted (context.Context.withTimeout ctx 120000000000) a.client
          "kube-system" E.SeedCsiDriverLvmResourceName
          (E.Delete ctx a.client "kube-system" E.SeedCsiDriverLvmResourceName false w.api).2).2 ∧
      (a.Delete E ctx log ex w).world.calls = w.calls ++
        [Call.Delete ctx a.client "kube-system" E.SeedCsiDriverLvmResourceName false,
         Call.WaitUntilDeleted (context.Context.withTimeout ctx 120000000000) a.client
           "kube-system" E.SeedCsiDriverLvmResourceName]) := by
  have hmin : (2 : Int) * time.Minute = 120000000000 := by decide
  have hns : namespace_ = "kube-system" := rfl
  simp only [actuator.Delete, managedresourcesDelete, waitUntilDeleted, hns,
    context.WithTimeout, hmin]
  generalize E.Delete ctx a.client "kube-system" E.SeedCsiDriverLvmResourceName false w.api
    = issued
  obtain ⟨issuedErr, s1⟩ := issued
  generalize hw : E.WaitUntilDeleted (context.Context.withTimeout ctx 120000000000) a.client
    "kube-system" E.SeedCsiDriverLvmResourceName s1 = waited
  obtain ⟨waitedErr, s2⟩ := waited
  cases issuedErr <;> cases waitedErr <;> simp [hw]

/-- A rejected delete is returned without a wait; an accepted one is followed by one
wait under the two minute timeout. -/
theorem Delete_issues_then_waits_witness :
    (sampleActuator.Delete deleteRejectingExternal sampleCtx sampleLog bareExtension
      sampleWorld).err = some (Error.New "forbidden") ∧
    (sampleActuator.Delete deleteRejectingExternal sampleCtx sampleLog bareExtension
      sampleWorld).world.calls =
      [Call.Delete sampleCtx { id := 0 } "kube-system" "extension-csi-driver-lvm" false] ∧
    (sampleActuator.Delete sampleExternal sampleCtx sampleLog bareExtension
      sampleWorld).err = none ∧
    (sampleActuator.Delete sampleExternal sampleCtx sampleLog bareExtension
      sampleWorld).world.calls =
      [Call.Delete sampleCtx { id := 0 } "kube-system" "extension-csi-driver-lvm" false,
       Call.WaitUntilDeleted (context.Context.withTimeout sampleCtx 120000000000) { id := 0 }
         "kube-system" "extension-csi-driver-lvm"] :=
  have h1 := (Delete_issues_then_waits deleteRejectingExternal sampleActuator sampleCtx
    sampleLog bareExtension sampleWorld).2.1 (Error.New "forbidden") rfl
  have h2 := (Delete_issues_then_waits sampleExternal sampleActuator sampleCtx
    sampleLog bareExtension sampleWorld).2.2 rfl
  ⟨h1.1, h1.2.2, h2.1, h2.2.2⟩

/-- C6: build atomicity on image-resolution failure. If the image vector fails to find
at least one of the six image names, then for the first failing name `first` in the
lookup order: the builder that looks it up returns nil objects together with the error
wrapping the lookup error of `first`; every builder one of whose images is not found
returns nil objects and an error; and `Reconcile` returns an error (the one of `first`
whenever the decode step succeeded), leaves the orchestration API untouched and makes
no apply call. -/
theorem build_aborts_on_image_failure (E : External σ) (a : actuator) (ns : String)
    (cfg : v1alpha1.CsiDriverLvmConfig) (ctx : context.Context) (log : logr.Logger)
    (ex : extensionsv1alpha1.Extension) (w wb : World σ)
    (h : ∃ name ∈ imageNames, ∃ err, E.FindImage name = Except.error err) :
    ∃ first firstErr before after,
      imageNames = before ++ first :: after ∧
      (∀ n ∈ before, ∃ image, E.FindImage n = Except.ok image) ∧
      E.FindImage first = Except.error firstErr ∧
      (first ∈ controllerImageNames →
        (a.controllerObjects E ns wb).1 =
          (none, some (fmt.Errorf ("failed to find " ++ first ++ " image: %w") firstErr))) ∧
      (first ∈ pluginImageNames →
        (a.pluginObjects E ns cfg log wb).1 =
          (none, some (fmt.Errorf ("failed to find " ++ first ++ " image: %w") firstErr))) ∧
      (∀ name ∈ controllerImageNames, ∀ err, E.FindImage name = Except.error err →
        ∃ buildErr, (a.controllerObjects E ns wb).1 = (none, some buildErr)) ∧
      (∀ name ∈ pluginImageNames, ∀ err, E.FindImage name = Except.error err →
        ∃ buildErr, (a.pluginObjects E ns cfg log wb).1 = (none, some buildErr)) ∧
      (∃ err, (a.Reconcile E ctx log ex w).err = some err) ∧
      (∀ decoded w1, Reconcile.decodeProviderConfig a ex w = (Except.ok decoded, w1) →
        (a.Reconcile E ctx log ex w).err =
          some (fmt.Errorf ("failed to find " ++ first ++ " image: %w") firstErr)) ∧
      (a.Reconcile E ctx log ex w).world.api = w.api ∧
      ∃ made, (a.Reconcile E ctx log ex w).world.calls = w.calls ++ made ∧
        ∀ c ∈ made, c.isApply = false := by
  obtain ⟨name, hmem, err, hfail⟩ := h
  obtain ⟨first, firstErr, hff⟩ := firstFailure_of_failure E imageNames name err hmem hfail
  obtain ⟨before, after, hl, hb, he⟩ := firstFailure_mem E imageNames first firstErr hff
  have happ := firstFailure_append E controllerImageNames pluginImageNames
  have hff2 : firstFailure E (controllerImageNames ++ pluginImageNames) =
      some (first, firstErr) := hff
  rw [happ] at hff2
  have hworld := decodeProviderConfig_world a ex w
  refine ⟨first, firstErr, before, after, hl, hb, he, ?_, ?_, ?_, ?_, ?_, ?_, ?_, ?_⟩
  · intro hc
    cases hcf : firstFailure E controllerImageNames with
    | none =>
      obtain ⟨image, himage⟩ := firstFailure_none E _ hcf first hc
      rw [he] at himage
      cases himage
    | some x =>
      rw [hcf] at hff2
      simp only [Option.some.injEq] at hff2
      subst hff2
      rw [controllerObjects_failure E a ns wb first firstErr hcf]
  · intro hp
    cases hcf : firstFailure E controllerImageNames with
    | none =>
      rw [hcf] at hff2
      rw [pluginObjects_failure E a ns cfg log wb first firstErr hff2]
    | some x =>
      rw [hcf] at hff2
      simp only [Option.some.injEq] at hff2
      subst hff2
      obtain ⟨b, c, hl2, _, _⟩ := firstFailure_mem E _ first firstErr hcf
      have hc : first ∈ controllerImageNames := by rw [hl2]; simp
      simp only [controllerImageNames, List.mem_cons, List.mem_singleton, List.not_mem_nil,
        or_false] at hc
      rcases hc with rfl | rfl <;> simp [pluginImageNames] at hp
  · intro n hn e hne
    obtain ⟨f, fe, hf⟩ := firstFailure_of_failure E controllerImageNames n e hn hne
    exact ⟨_, by rw [controllerObjects_failure E a ns wb f fe hf]⟩
  · intro n hn e hne
    obtain ⟨f, fe, hf⟩ := firstFailure_of_failure E pluginImageNames n e hn hne
    exact ⟨_, by rw [pluginObjects_failure E a ns cfg log wb f fe hf]⟩
  · rcases hd : Reconcile.decodeProviderConfig a ex w with ⟨_ | decoded, w1⟩
    · exact ⟨_, by rw [Reconcile_decode_error E a ctx log ex w w1 _ hd]⟩
    · exact ⟨_, by rw [Reconcile_build_error E a ctx log ex w w1 decoded first firstErr hd hff]⟩
  · intro decoded w1 hd
    rw [Reconcile_build_error E a ctx log ex w w1 decoded first firstErr hd hff]
  · rcases hd : Reconcile.decodeProviderConfig a ex w with ⟨_ | decoded, w1⟩
    · rw [Reconcile_decode_error E a ctx log ex w w1 _ hd]
      rw [hd] at hworld
      simp only at hworld
      rw [hworld]
    · rw [Reconcile_build_error E a ctx log ex w w1 decoded first firstErr hd hff]
      rw [hd] at hworld
      simp only at hworld
      rw [hworld]
  · have hdecodeCalls : ∀ c ∈ (match ex.Spec.ProviderConfig with
        | some providerConfig => [Call.Decode providerConfig.Raw]
        | none => []), c.isApply = false := by
      intro c hc
      cases hpc : ex.Spec.ProviderConfig with
      | none => simp [hpc] at hc
      | some providerConfig =>
        simp only [hpc, List.mem_singleton] at hc
        rw [hc]
        rfl
    rcases hd : Reconcile.decodeProviderConfig a ex w with ⟨_ | decoded, w1⟩
    · rw [Reconcile_decode_error E a ctx log ex w w1 _ hd]
      rw [hd] at hworld
      simp only at hworld
      rw [hworld]
      exact ⟨_, rfl, hdecodeCalls⟩
    · rw [Reconcile_build_error E a ctx log ex w w1 decoded first firstErr hd hff]
      rw [hd] at hworld
      simp only at hworld
      rw [hworld]
      refine ⟨_, List.append_assoc _ _ _, ?_⟩
      intro c hc
      rcases List.mem_append.mp hc with hc | hc
      · exact hdecodeCalls c hc
      · obtain ⟨n, _, rfl⟩ := List.mem_map.mp hc
        rfl

/-- The image vector without `livenessprobe`: `pluginObjects` returns nil objects and
the error of that name, and `Reconcile` fails with it before any apply. -/
theorem build_aborts_on_image_failure_witness :
    (sampleActuator.pluginObjects missingImageExternal namespace_ {} sampleLog sampleWorld).1 =
      (none, some (Error.Wrapped "failed to find livenessprobe image: %w"
        (Error.New "image not found"))) ∧
    (sampleActuator.Reconcile missingImageExternal sampleCtx sampleLog fullExtension
      sampleWorld).err =
      some (Error.Wrapped "failed to find livenessprobe image: %w"
        (Error.New "image not found")) ∧
    appliedBundles (sampleActuator.Reconcile missingImageExternal sampleCtx sampleLog
      fullExtension sampleWorld).world.calls = [] := by
  obtain ⟨first, firstErr, before, after, hl, hb, he, _, hplugin, _, _, _, hrec, _, made,
      hcalls, hmade⟩ :=
    build_aborts_on_image_failure missingImageExternal sampleActuator namespace_ {} sampleCtx
      sampleLog fullExtension sampleWorld sampleWorld
      ⟨"livenessprobe", by decide, Error.New "image not found", rfl⟩
  have hfirst : first = "livenessprobe" ∧ firstErr = Error.New "image not found" := by
    simp only [missingImageExternal, sampleFindImage] at he
    split at he
    · rename_i hname
      simp only [Except.error.injEq] at he
      exact ⟨hname, he.symm⟩
    · cases he
  obtain ⟨rfl, rfl⟩ := hfirst
  refine ⟨hplugin (by decide), hrec _ _ rfl, ?_⟩
  rw [hcalls]
  simp only [sampleWorld, List.nil_append, appliedBundles, List.filterMap_eq_nil_iff]
  intro c hc
  have := hmade c hc
  cases c <;> simp_all [Call.isApply]

/-- C7: a decode failure aborts `Reconcile`. When a provider configuration is present
and the decoder fails on its raw bytes, `Reconcile` returns the decode error wrapped
as `failed to decode provider config`, its only call is that decode (no image lookup,
no serialization, no apply) and the orchestration API is untouched. When the provider
configuration is absent, `Reconcile` makes no decode call, and its result and final
world are the same whatever decoder the actuator holds. -/
theorem Reconcile_decode_failure_aborts (E : External σ) (a : actuator) (ctx : context.Context)
    (log : logr.Logger) (ex : extensionsv1alpha1.Extension) (w : World σ) :
    (∀ providerConfig err, ex.Spec.ProviderConfig = some providerConfig →
      a.decoder.Decode providerConfig.Raw {} = Except.error err →
      (a.Reconcile E ctx log ex w).err =
        some (fmt.Errorf "failed to decode provider config: %w" err) ∧
      (a.Reconcile E ctx log ex w).world.api = w.api ∧
      (a.Reconcile E ctx log ex w).world.calls =
        w.calls ++ [Call.Decode providerConfig.Raw]) ∧
    (ex.Spec.ProviderConfig = none →
      (∃ made, (a.Reconcile E ctx log ex w).world.calls = w.calls ++ made ∧
        ∀ c ∈ made, c.isDecode = false) ∧
      ∀ decoder : Decoder,
        (actuator.Reconcile E { client := a.client, decoder := decoder, config := a.config }
          ctx log ex w).err = (a.Reconcile E ctx log ex w).err ∧
        (actuator.Reconcile E { client := a.client, decoder := decoder, config := a.config }
          ctx log ex w).world = (a.Reconcile E ctx log ex w).world) := by
  constructor
  · intro providerConfig err hpc herr
    have hd : Reconcile.decodeProviderConfig a ex w =
        (Except.error (fmt.Errorf "failed to decode provider config: %w" err),
         w.record (Call.Decode providerConfig.Raw)) := by
      rw [decodeProviderConfig_present a ex w providerConfig hpc, herr]
    rw [Reconcile_decode_error E a ctx log ex w _ _ hd]
    exact ⟨rfl, rfl, rfl⟩
  · intro habsent
    constructor
    · obtain ⟨made, hcalls, hno, _⟩ := Reconcile_calls_after_decode E a ctx log ex w w {}
        (decodeProviderConfig_absent a ex w habsent)
      exact ⟨made, hcalls, hno⟩
    · intro decoder
      have h1 := decodeProviderConfig_absent a ex w habsent
      have h2 := decodeProviderConfig_absent
        { client := a.client, decoder := decoder, config := a.config } ex w habsent
      exact Reconcile_after_decode_congr E a
        { client := a.client, decoder := decoder, config := a.config } ctx log ex w w {}
        rfl rfl h1 h2

/-- A provider configuration with an unknown field aborts `Reconcile` after the decode;
without provider configuration no decode is made. -/
theorem Reconcile_decode_failure_aborts_witness :
    (sampleActuator.Reconcile sampleExternal sampleCtx sampleLog malformedExtension
      sampleWorld).err =
      some (Error.Wrapped "failed to decode provider config: %w" (Error.New "unknown field")) ∧
    (sampleActuator.Reconcile sampleExternal sampleCtx sampleLog malformedExtension
      sampleWorld).world.calls = [Call.Decode [7]] ∧
    ∃ made, (sampleActuator.Reconcile sampleExternal sampleCtx sampleLog bareExtension
      sampleWorld).world.calls = sampleWorld.calls ++ made ∧ ∀ c ∈ made, c.isDecode = false :=
  have hfail := (Reconcile_decode_failure_aborts sampleExternal sampleActuator sampleCtx
    sampleLog malformedExtension sampleWorld).1 { Raw := [7] } (Error.New "unknown field") rfl rfl
  have habsent := (Reconcile_decode_failure_aborts sampleExternal sampleActuator sampleCtx
    sampleLog bareExtension sampleWorld).2 rfl
  ⟨hfail.1, hfail.2.2, habsent.1⟩

/-- C8: `ForceDelete` and `Migrate` are no-ops that always succeed. For every context,
logger, extension resource and world, each returns nil, leaves the actuator as it was
and leaves the world as it was: the orchestration API state is unchanged and no call
(apply, delete, wait or other) is added to the log. -/
theorem ForceDelete_Migrate_noop (E : External σ) (a : actuator) (ctx : context.Context)
    (log : logr.Logger) (ex : extensionsv1alpha1.Extension) (w : World σ) :
    ((a.ForceDelete E ctx log ex w).err = none ∧
      (a.ForceDelete E ctx log ex w).self = a ∧
      (a.ForceDelete E ctx log ex w).world.api = w.api ∧
      (a.ForceDelete E ctx log ex w).world.calls = w.calls) ∧
    ((a.Migrate E ctx log ex w).err = none ∧
      (a.Migrate E ctx log ex w).self = a ∧
      (a.Migrate E ctx log ex w).world.api = w.api ∧
      (a.Migrate E ctx log ex w).world.calls = w.calls) :=
  ⟨⟨rfl, rfl, rfl, rfl⟩, ⟨rfl, rfl, rfl, rfl⟩⟩

/-- C9: the desired object set has no two objects of the same kind and name. Whenever
the decode step succeeds and all six images are found, the one list `Reconcile` hands
to serialization is the list returned by `controllerObjects` followed by the list
returned by `pluginObjects` for the merged configuration, and the (kind, name) pairs
of that combined list are pairwise distinct. -/
theorem Reconcile_objects_distinct (E : External σ) (a : actuator) (ctx : context.Context)
    (log : logr.Logger) (ex : extensionsv1alpha1.Extension) (w wc wp : World σ)
    (decoded : v1alpha1.CsiDriverLvmConfig)
    (hd : (Reconcile.decodeProviderConfig a ex w).1 = Except.ok decoded)
    (himages : ∀ name ∈ imageNames, ∃ image, E.FindImage name = Except.ok image) :
    ∃ controllerObjs pluginObjs made,
      (a.controllerObjects E namespace_ wc).1 = (some controllerObjs, none) ∧
      (a.pluginObjects E namespace_ (Reconcile.applyDefaults a decoded) log wp).1 =
        (some pluginObjs, none) ∧
      (a.Reconcile E ctx log ex w).world.calls = w.calls ++ made ∧
      serializedObjects made = [controllerObjs ++ pluginObjs] ∧
      ((controllerObjs ++ pluginObjs).map fun o => (o.kind, o.name)).Nodup := by
  have hf := firstFailure_eq_none E imageNames himages
  have hfc := firstFailure_eq_none E controllerImageNames
    (fun name hn => himages name (List.mem_append_left _ hn))
  have hfp := firstFailure_eq_none E pluginImageNames
    (fun name hn => himages name (List.mem_append_right _ hn))
  obtain ⟨made, hcalls, hser, _⟩ := Reconcile_made E a ctx log ex w
  have hfst := decodeProviderConfig_decodedConfig a ex w
  rw [hd] at hfst
  have hdec : decodedConfig a ex = Except.ok decoded := by
    cases hdec : decodedConfig a ex <;> simp [hdec] at hfst
    rw [hfst]
  refine ⟨controllerObjectList E namespace_,
    pluginObjectList E namespace_ (Reconcile.applyDefaults a decoded), made, ?_, ?_, hcalls, ?_,
    objectKeys_nodup E namespace_ _⟩
  · rw [controllerObjects_success E a namespace_ wc hfc]
  · rw [pluginObjects_success E a namespace_ _ log wp hfp]
  · rw [hser]
    simp only [plannedObjects, hdec, hf]

/-- A full run on the healthy installation: thirteen objects are serialized, with
pairwise distinct (kind, name) pairs. -/
theorem Reconcile_objects_distinct_witness :
    ∃ objects,
      serializedObjects (sampleActuator.Reconcile sampleExternal sampleCtx sampleLog
        fullExtension sampleWorld).world.calls = [objects] ∧
      objects.length = 13 ∧
      (objects.map fun o => (o.kind, o.name)).Nodup := by
  obtain ⟨controllerObjs, pluginObjs, made, hc, hp, hcalls, hser, hnodup⟩ :=
    Reconcile_objects_distinct sampleExternal sampleActuator sampleCtx sampleLog fullExtension
      sampleWorld sampleWorld sampleWorld
      { HostWritePath := some "/data/lvm", DevicePattern := some "/dev/nvme*" } rfl
      (fun _ _ => ⟨_, rfl⟩)
  refine ⟨controllerObjs ++ pluginObjs, ?_, ?_, hnodup⟩
  · rw [hcalls]
    exact hser
  · have h1 : controllerObjs.length = 4 := by
      have := congrArg (fun r => (r.1.map List.length)) hc
      exact (Option.some.inj this).symm
    have h2 : pluginObjs.length = 9 := by
      have := congrArg (fun r => (r.1.map List.length)) hp
      exact (Option.some.inj this).symm
    rw [List.length_append, h1, h2]

/-- C10: `Reconcile` is deterministic and idempotent in what it hands to apply.
`Reconcile` returns the actuator as it received it, operator defaults included. A
second `Reconcile` in succession, on the same extension resource from the world the
first one left (under any context and logger), serializes the same object lists and
applies the same bundles as the first. More generally two runs under any contexts,
loggers, worlds, clients and orchestration APIs serialize the same object lists and
apply the same bundles, as soon as they agree on the provider configuration, the
decoder, the operator configuration, the image lookups, the serializer and the
managed-resource name. -/
theorem Reconcile_idempotent (E : External σ) (a : actuator) (ctx1 ctx2 : context.Context)
    (log1 log2 : logr.Logger) (ex : extensionsv1alpha1.Extension) (w : World σ) :
    (a.Reconcile E ctx1 log1 ex w).self = a ∧
    (∃ made1 made2,
      (a.Reconcile E ctx1 log1 ex w).world.calls = w.calls ++ made1 ∧
      ((a.Reconcile E ctx1 log1 ex w).self.Reconcile E ctx2 log2 ex
        (a.Reconcile E ctx1 log1 ex w).world).world.calls =
          (a.Reconcile E ctx1 log1 ex w).world.calls ++ made2 ∧
      serializedObjects made1 = serializedObjects made2 ∧
      appliedBundles made1 = appliedBundles made2) ∧
    (∀ (τ : Type) (E2 : External τ) (a2 : actuator) (ctx3 : context.Context)
      (log3 : logr.Logger) (ex2 : extensionsv1alpha1.Extension) (w2 : World τ),
      E2.FindImage = E.FindImage →
      E2.AddAllAndSerialize = E.AddAllAndSerialize →
      E2.SeedCsiDriverLvmResourceName = E.SeedCsiDriverLvmResourceName →
      a2.decoder.Decode = a.decoder.Decode →
      a2.config = a.config →
      ex2.Spec.ProviderConfig = ex.Spec.ProviderConfig →
      ∃ made1 made2,
        (a.Reconcile E ctx1 log1 ex w).world.calls = w.calls ++ made1 ∧
        (a2.Reconcile E2 ctx3 log3 ex2 w2).world.calls = w2.calls ++ made2 ∧
        serializedObjects made1 = serializedObjects made2 ∧
        appliedBundles made1 = appliedBundles made2) := by
  have hself := Reconcile_self E a ctx1 log1 ex w
  obtain ⟨made1, hcalls1, hser1, happl1⟩ := Reconcile_made E a ctx1 log1 ex w
  refine ⟨hself, ?_, ?_⟩
  · obtain ⟨made2, hcalls2, hser2, happl2⟩ := Reconcile_made E
      (a.Reconcile E ctx1 log1 ex w).self ctx2 log2 ex (a.Reconcile E ctx1 log1 ex w).world
    rw [hself] at hser2 happl2
    exact ⟨made1, made2, hcalls1, hcalls2, hser1.trans hser2.symm, happl1.trans happl2.symm⟩
  · intro τ E2 a2 ctx3 log3 ex2 w2 himages hserialize hname hdecoder hconfig hpc
    obtain ⟨made2, hcalls2, hser2, happl2⟩ := Reconcile_made E2 a2 ctx3 log3 ex2 w2
    obtain ⟨hobjects, hbundles⟩ := planned_congr E E2 a a2 ex ex2 himages hserialize hname
      hdecoder hconfig hpc
    exact ⟨made1, made2, hcalls1, hcalls2, hser1.trans (hobjects.symm.trans hser2.symm),
      happl1.trans (hbundles.symm.trans happl2.symm)⟩

/-- Two runs in succession on the healthy installation: each applies one bundle, and
the second applies the bundle the first applied. -/
theorem Reconcile_idempotent_witness :
    ∃ made1 made2,
      (sampleActuator.Reconcile sampleExternal sampleCtx sampleLog fullExtension
        sampleWorld).world.calls = made1 ∧
      (sampleActuator.Reconcile sampleExternal sampleCtx sampleLog fullExtension
        (sampleActuator.Reconcile sampleExternal sampleCtx sampleLog fullExtension
          sampleWorld).world).world.calls = made1 ++ made2 ∧
      serializedObjects made1 = serializedObjects made2 ∧
      appliedBundles made1 = appliedBundles made2 ∧
      (appliedBundles made1).length = 1 := by
  obtain ⟨_, ⟨made1, made2, h1, h2, hser, happl⟩, _⟩ :=
    Reconcile_idempotent sampleExternal sampleActuator sampleCtx sampleCtx sampleLog sampleLog
      fullExtension sampleWorld
  have h1' : (sampleActuator.Reconcile sampleExternal sampleCtx sampleLog fullExtension
      sampleWorld).world.calls = made1 := by
    rw [h1]
    rfl
  refine ⟨made1, made2, h1', ?_, hser, happl, ?_⟩
  · rw [← h1']
    exact h2
  · rw [← h1']
    rfl

/-- C11 (the code departs from the claim): when both controller images are found,
`controllerObjects` builds one stateful set with replica count 1 and one required pod
anti-affinity term with topology key `kubernetes.io/hostname`; the selector of that
term requires `app` in `csi-driver-lvm-controller`, the pod template is labelled
`app=csi-driver-lvm`, and so the selector does not match the labels of the pod
template. -/
theorem controllerObjects_antiaffinity_mismatch (E : External σ) (a : actuator) (ns : String)
    (w : World σ)
    (himages : ∀ name ∈ controllerImageNames, ∃ image, E.FindImage name = Except.ok image) :
    ∃ objects workload term selector,
      (a.controllerObjects E ns w).1 = (some objects, none) ∧
      statefulSets objects = [workload] ∧
      workload.Spec.Replicas = some 1 ∧
      antiAffinityTerms workload.Spec.Template.Spec = [term] ∧
      term.TopologyKey = "kubernetes.io/hostname" ∧
      term.LabelSelector = some selector ∧
      selector.MatchLabels = [] ∧
      selector.MatchExpressions =
        [{ Key := "app", Operator := "In", Values := ["csi-driver-lvm-controller"] }] ∧
      workload.Spec.Template.ObjectMeta.Labels = [("app", "csi-driver-lvm")] ∧
      selectorMatches selector workload.Spec.Template.ObjectMeta.Labels = false := by
  have hf := firstFailure_eq_none E controllerImageNames himages
  refine ⟨controllerObjectList E ns,
    csidriverlvmStatefulsetController ns (foundImage E "csi-attacher")
      (foundImage E "csi-resizer"),
    { LabelSelector := some { MatchExpressions :=
        [{ Key := "app", Operator := "In", Values := ["csi-driver-lvm-controller"] }] }
      TopologyKey := "kubernetes.io/hostname" },
    { MatchExpressions :=
        [{ Key := "app", Operator := "In", Values := ["csi-driver-lvm-controller"] }] },
    ?_, rfl, rfl, rfl, rfl, rfl, rfl, rfl, rfl, ?_⟩
  · rw [controllerObjects_success E a ns w hf]
  · have hlabels : (csidriverlvmStatefulsetController ns (foundImage E "csi-attacher")
        (foundImage E "csi-resizer")).Spec.Template.ObjectMeta.Labels =
        [("app", "csi-driver-lvm")] := rfl
    rw [hlabels]
    decide

/-- The stateful set built on the healthy installation: replica count 1, and an
anti-affinity selector that does not match its own pod template. -/
theorem controllerObjects_antiaffinity_mismatch_witness :
    ∃ objects workload term selector,
      (sampleActuator.controllerObjects sampleExternal namespace_ sampleWorld).1 =
        (some objects, none) ∧
      statefulSets objects = [workload] ∧
      workload.Spec.Replicas = some 1 ∧
      antiAffinityTerms workload.Spec.Template.Spec = [term] ∧
      term.TopologyKey = "kubernetes.io/hostname" ∧
      term.LabelSelector = some selector ∧
      selector.MatchLabels = [] ∧
      selector.MatchExpressions =
        [{ Key := "app", Operator := "In", Values := ["csi-driver-lvm-controller"] }] ∧
      workload.Spec.Template.ObjectMeta.Labels = [("app", "csi-driver-lvm")] ∧
      selectorMatches selector workload.Spec.Template.ObjectMeta.Labels = false :=
  controllerObjects_antiaffinity_mismatch sampleExternal sampleActuator namespace_ sampleWorld
    (fun _ _ => ⟨_, rfl⟩)

/-- C12 (the code departs from the claim): when all six images are found, the plugin
daemon set `csi-driver-lvm-plugin` selects the pods it creates (every pair of its
selector `matchLabels` is a label of its pod template), but the controller stateful
set `csi-driver-lvm-controller` does not: its selector has the pair
`app=csi-driver-lvm-controller`, which is not a label of its pod template
(`app=csi-driver-lvm`), so its selector does not match its own pods. -/
theorem workload_selectors (E : External σ) (a : actuator) (ns : String)
    (cfg : v1alpha1.CsiDriverLvmConfig) (log : logr.Logger) (w : World σ)
    (himages : ∀ name ∈ imageNames, ∃ image, E.FindImage name = Except.ok image) :
    ∃ controllerObjs pluginObjs statefulSet daemonSet statefulSetSelector daemonSetSelector,
      (a.controllerObjects E ns w).1 = (some controllerObjs, none) ∧
      (a.pluginObjects E ns cfg log w).1 = (some pluginObjs, none) ∧
      statefulSets (controllerObjs ++ pluginObjs) = [statefulSet] ∧
      daemonSets (controllerObjs ++ pluginObjs) = [daemonSet] ∧
      statefulSet.ObjectMeta.Name = "csi-driver-lvm-controller" ∧
      daemonSet.ObjectMeta.Name = "csi-driver-lvm-plugin" ∧
      daemonSet.Spec.Selector = some daemonSetSelector ∧
      (∀ kv ∈ daemonSetSelector.MatchLabels, kv ∈ daemonSet.Spec.Template.ObjectMeta.Labels) ∧
      selectorMatches daemonSetSelector daemonSet.Spec.Template.ObjectMeta.Labels = true ∧
      statefulSet.Spec.Selector = some statefulSetSelector ∧
      ("app", "csi-driver-lvm-controller") ∈ statefulSetSelector.MatchLabels ∧
      ("app", "csi-driver-lvm-controller") ∉ statefulSet.Spec.Template.ObjectMeta.Labels ∧
      selectorMatches statefulSetSelector statefulSet.Spec.Template.ObjectMeta.Labels =
        false := by
  have hfc := firstFailure_eq_none E controllerImageNames
    (fun name hn => himages name (List.mem_append_left _ hn))
  have hfp := firstFailure_eq_none E pluginImageNames
    (fun name hn => himages name (List.mem_append_right _ hn))
  have hsts : (csidriverlvmStatefulsetController ns (foundImage E "csi-attacher")
      (foundImage E "csi-resizer")).Spec.Template.ObjectMeta.Labels =
      [("app", "csi-driver-lvm")] := rfl
  have hds : (csidriverlvmDaemonSetPlugin ns cfg (foundImage E "csi-node-driver-registrar")
      (foundImage E "livenessprobe") (foundImage E "csi-driver-lvm")
      (foundImage E "csi-driver-lvm-provisioner")).Spec.Template.ObjectMeta.Labels =
      [("app", "csi-driver-lvm-plugin")] := rfl
  refine ⟨controllerObjectList E ns, pluginObjectList E ns cfg,
    csidriverlvmStatefulsetController ns (foundImage E "csi-attacher")
      (foundImage E "csi-resizer"),
    csidriverlvmDaemonSetPlugin ns cfg (foundImage E "csi-node-driver-registrar")
      (foundImage E "livenessprobe") (foundImage E "csi-driver-lvm")
      (foundImage E "csi-driver-lvm-provisioner"),
    { MatchLabels := [("app", "csi-driver-lvm-controller")] },
    { MatchLabels := [("app", "csi-driver-lvm-plugin")] },
    ?_, ?_, rfl, rfl, rfl, rfl, rfl, ?_, ?_, rfl, ?_, ?_, ?_⟩
  · rw [controllerObjects_success E a ns w hfc]
  · rw [pluginObjects_success E a ns cfg log w hfp]
  · rw [hds]
    decide
  · rw [hds]
    decide
  · decide
  · rw [hsts]
    decide
  · rw [hsts]
    decide

/-- The two workloads built on the healthy installation: the daemon set selects its
pods, the stateful set does not. -/
theorem workload_selectors_witness :
    ∃ controllerObjs pluginObjs statefulSet daemonSet statefulSetSelector daemonSetSelector,
      (sampleActuator.controllerObjects sampleExternal namespace_ sampleWorld).1 =
        (some controllerObjs, none) ∧
      (sampleActuator.pluginObjects sampleExternal namespace_ {} sampleLog sampleWorld).1 =
        (some pluginObjs, none) ∧
      statefulSets (controllerObjs ++ pluginObjs) = [statefulSet] ∧
      daemonSets (controllerObjs ++ pluginObjs) = [daemonSet] ∧
      daemonSet.Spec.Selector = some daemonSetSelector ∧
      selectorMatches daemonSetSelector daemonSet.Spec.Template.ObjectMeta.Labels = true ∧
      statefulSet.Spec.Selector = some statefulSetSelector ∧
      statefulSetSelector.MatchLabels = [("app", "csi-driver-lvm-controller")] ∧
      statefulSet.Spec.Template.ObjectMeta.Labels = [("app", "csi-driver-lvm")] ∧
      selectorMatches statefulSetSelector statefulSet.Spec.Template.ObjectMeta.Labels =
        false := by
  obtain ⟨controllerObjs, pluginObjs, statefulSet, daemonSet, statefulSetSelector,
      daemonSetSelector, hc, hp, hsts, hds, _, _, hdsSel, _, hdsMatch, hstsSel, _, _,
      hstsMatch⟩ :=
    workload_selectors sampleExternal sampleActuator namespace_ {} sampleLog sampleWorld
      (fun _ _ => ⟨_, rfl⟩)
  have hc2 : controllerObjs = controllerObjectList sampleExternal namespace_ :=
    (Option.some.inj (congrArg Prod.fst hc)).symm
  have hp2 : pluginObjs = pluginObjectList sampleExternal namespace_ {} :=
    (Option.some.inj (congrArg Prod.fst hp)).symm
  subst hc2 hp2
  have hsts2 : statefulSet = csidriverlvmStatefulsetController namespace_
      (foundImage sampleExternal "csi-attacher") (foundImage sampleExternal "csi-resizer") :=
    (List.cons.inj hsts).1.symm
  subst hsts2
  have hsel : statefulSetSelector = { MatchLabels := [("app", "csi-driver-lvm-controller")] } :=
    (Option.some.inj hstsSel).symm
  subst hsel
  exact ⟨_, _, _, daemonSet, _, daemonSetSelector, hc, hp, hsts, hds, hdsSel, hdsMatch,
    rfl, rfl, rfl, hstsMatch⟩

/-- C13 (the code departs from the claim): when all six images are found, the plugin
tier creates the four storage classes, and the one cluster role of the controller
tier, `csi-driver-lvm-controller`, has no rule naming the resource `storageclasses`,
hence none granting get, list or watch on it: its rule for get, list and watch in the
API group `storage.k8s.io` names the resource `storageclaess`. -/
theorem controller_role_storageclasses (E : External σ) (a : actuator) (ns : String)
    (cfg : v1alpha1.CsiDriverLvmConfig) (log : logr.Logger) (w : World σ)
    (himages : ∀ name ∈ imageNames, ∃ image, E.FindImage name = Except.ok image) :
    ∃ controllerObjs pluginObjs role,
      (a.controllerObjects E ns w).1 = (some controllerObjs, none) ∧
      (a.pluginObjects E ns cfg log w).1 = (some pluginObjs, none) ∧
      (storageClasses pluginObjs).map (fun c => c.ObjectMeta.Name) =
        ["csi-lvm", "csi-driver-lvm-linear", "csi-driver-lvm-mirror",
         "csi-driver-lvm-striped"] ∧
      clusterRoles controllerObjs = [role] ∧
      role.ObjectMeta.Name = "csi-driver-lvm-controller" ∧
      (∀ rule ∈ role.Rules, "storageclasses" ∉ rule.Resources) ∧
      (∀ rule ∈ role.Rules, ∀ verb,
        ruleGrants rule "storage.k8s.io" "storageclasses" verb = false) ∧
      { APIGroups := ["storage.k8s.io"], Resources := ["storageclaess"],
        Verbs := ["get", "list", "watch"] } ∈ role.Rules := by
  have hfc := firstFailure_eq_none E controllerImageNames
    (fun name hn => himages name (List.mem_append_left _ hn))
  have hfp := firstFailure_eq_none E pluginImageNames
    (fun name hn => himages name (List.mem_append_right _ hn))
  have hnone : ∀ rule ∈ (csidriverlvmClusterRoleController ns).Rules,
      "storageclasses" ∉ rule.Resources := by
    simp [csidriverlvmClusterRoleController]
  refine ⟨controllerObjectList E ns, pluginObjectList E ns cfg,
    csidriverlvmClusterRoleController ns, ?_, ?_, rfl, rfl, rfl, hnone, ?_, ?_⟩
  · rw [controllerObjects_success E a ns w hfc]
  · rw [pluginObjects_success E a ns cfg log w hfp]
  · intro rule hrule verb
    have := hnone rule hrule
    simp [ruleGrants, this]
  · simp [csidriverlvmClusterRoleController]

/-- The cluster role built on the healthy installation grants nothing on
`storageclasses`. -/
theorem controller_role_storageclasses_witness :
    ∃ controllerObjs role,
      (sampleActuator.controllerObjects sampleExternal namespace_ sampleWorld).1 =
        (some controllerObjs, none) ∧
      clusterRoles controllerObjs = [role] ∧
      (∀ rule ∈ role.Rules, "storageclasses" ∉ rule.Resources) ∧
      { APIGroups := ["storage.k8s.io"], Resources := ["storageclaess"],
        Verbs := ["get", "list", "watch"] } ∈ role.Rules := by
  obtain ⟨controllerObjs, _, role, hc, _, _, hroles, _, hnone, _, hrule⟩ :=
    controller_role_storageclasses sampleExternal sampleActuator namespace_ {} sampleLog
      sampleWorld (fun _ _ => ⟨_, rfl⟩)
  exact ⟨controllerObjs, role, hc, hroles, hnone, hrule⟩

end Claims

end CsiDriverLvm
